import Mathlib

/-!
Shallow embedding of the IoT telemetry ingestion pipeline: readings are
persisted to a durable store, the latest reading per device is cached in a
key-value store with per-key expiry, and threshold alerts are delivered to a
webhook with time-windowed deduplication.

Modelling conventions:
* numbers (temperatures, humidities, alert values) are rationals;
* timestamps are integers (the instant obtained by parsing the validated
  ISO-8601 string; parsing of already-validated strings is not re-modelled);
* the cache is an association list of (key, value, remaining ttl) entries,
  keyed by the same string keys the code builds;
* a JavaScript exception is an `Except.error`; `try/catch` is a `match` that
  maps the error branch back to a normal result;
* calls on the underlying cache client take a `throws : Bool` oracle saying
  whether the client call raises; the webhook delivery outcome is an oracle
  `delivery : AlertDto → Except DeliveryError Nat` in the environment;
* fire-and-forget promises (`.catch(log)`) are run synchronously and their
  errors discarded, which preserves their effect on state and their
  invisibility to the caller's result.
-/

namespace Cloude360

/-- Metrics of one reading: temperature and humidity. -/
structure Metrics where
  temperature : ℚ
  humidity : ℚ
deriving DecidableEq

/-- A validated telemetry reading (DTO), with `ts` already parsed to an
instant. The stored durable document carries the same payload (the `_id` /
`createdAt` metadata added by the store plays no role in the claims and is
omitted). -/
structure TelemetryDto where
  deviceId : String
  siteId : String
  ts : Int
  metrics : Metrics
deriving DecidableEq

/-- Alert reason enum. -/
inductive AlertReason where
  | HIGH_TEMPERATURE
  | HIGH_HUMIDITY
deriving DecidableEq

/-- String value of the reason enum member, as serialized into cache keys. -/
def AlertReason.str : AlertReason → String
  | .HIGH_TEMPERATURE => "HIGH_TEMPERATURE"
  | .HIGH_HUMIDITY => "HIGH_HUMIDITY"

/-- Alert payload sent to the webhook. -/
structure AlertDto where
  deviceId : String
  siteId : String
  ts : Int
  reason : AlertReason
  value : ℚ
deriving DecidableEq

/-- A parsed JSON value as produced by `JSON.parse` on the payload shapes this
system stores: either a serialized reading (under `latest:` keys) or the
number written by the dedup marker (`"1"`). -/
inductive Json where
  | reading (v : TelemetryDto)
  | num (q : ℚ)
deriving DecidableEq

/-- JavaScript truthiness of a parsed cache value (`if (cached)`), as far as
the shapes above are concerned: objects are truthy, a number is truthy iff it
is nonzero. -/
def Json.truthy : Json → Bool
  | .reading _ => true
  | .num q => decide (q ≠ 0)

/-- A raw value stored in the cache: either well-formed JSON text, or bytes on
which `JSON.parse` throws. -/
inductive CacheVal where
  | jsonOf (j : Json)
  | corrupt
deriving DecidableEq

/-- Model of `JSON.parse`: succeeds on well-formed payloads, fails (throws in
the code) on corrupt ones. -/
def jsonParse : CacheVal → Option Json
  | .jsonOf j => some j
  | .corrupt => none

/-- One cache entry: key, raw value, remaining time-to-live in seconds. -/
structure CacheEntry where
  key : String
  val : CacheVal
  ttl : Nat
deriving DecidableEq

/-- State of the cache service: the connection flag kept by the service and
the key-value store held by the cache server. -/
structure RedisState where
  isConnected : Bool
  store : List CacheEntry
deriving DecidableEq

/-- Errors of the embedded pipeline, mirroring the JavaScript exceptions. -/
inductive DeliveryError where
  | network
  | badStatus (code : Nat)
  | timeout
deriving DecidableEq

/-- Exception type: cache client failures, webhook delivery failures, durable
store failures, and the NotFound exception of the latest-reading lookup. -/
inductive Err where
  | cache
  | delivery (e : DeliveryError)
  | storage
  | notFound (deviceId : String)
deriving DecidableEq

/-- Lookup of a key in the cache store (first matching entry). -/
def lookupEntry : List CacheEntry → String → Option (CacheVal × Nat)
  | [], _ => none
  | e :: es, k => if e.key = k then some (e.val, e.ttl) else lookupEntry es k

/-- Lookup of just the value under a key. -/
def lookupKey (l : List CacheEntry) (k : String) : Option CacheVal :=
  (lookupEntry l k).map Prod.fst

/-- Removal of all entries under a key. -/
def eraseKey : List CacheEntry → String → List CacheEntry
  | [], _ => []
  | e :: es, k => if e.key = k then eraseKey es k else e :: eraseKey es k

/-- Model of the cache client `get` call: throws when the oracle says so,
otherwise returns the stored value (or nothing). -/
def clientGet (st : RedisState) (throws : Bool) (k : String) :
    Except Err (Option CacheVal) :=
  if throws then .error .cache else .ok (lookupKey st.store k)

/-- Model of the cache client `setex` call: throws when the oracle says so,
otherwise stores the value under the key with the given expiry, replacing any
previous entry. -/
def clientSetex (st : RedisState) (throws : Bool) (k : String) (ttl : Nat)
    (v : CacheVal) : Except Err RedisState :=
  if throws then .error .cache
  else .ok { st with store := ⟨k, v, ttl⟩ :: eraseKey st.store k }

/-- Model of the cache client `exists` call: returns how many of the given
keys are present (here always a single key, so 0 or 1). -/
def clientExistsCount (st : RedisState) (throws : Bool) (k : String) :
    Except Err Nat :=
  if throws then .error .cache
  else .ok (match lookupKey st.store k with | some _ => 1 | none => 0)

namespace RedisService

/-- Cache the latest telemetry reading for a device under `latest:<deviceId>`
with a default 24h expiry. Skips the write when disconnected and swallows any
client failure (fail gracefully, never throw). -/
def cacheLatest (st : RedisState) (throws : Bool) (deviceId : String)
    (data : TelemetryDto) (ttl : Nat := 86400) : Except Err RedisState :=
  if st.isConnected = false then .ok st
  else
    match clientSetex st throws ("latest:" ++ deviceId) ttl
        (.jsonOf (.reading data)) with
    | .ok st' => .ok st'
    | .error _ => .ok st

/-- Get the cached latest reading for a device: returns nothing when
disconnected, when the key is absent, or when the client call or the
deserialization (`JSON.parse`) fails — all failures are caught and mapped to
a miss. -/
def getLatest (st : RedisState) (throws : Bool) (deviceId : String) :
    Except Err (Option Json) :=
  if st.isConnected = false then .ok none
  else
    match clientGet st throws ("latest:" ++ deviceId) with
    | .error _ => .ok none
    | .ok none => .ok none
    | .ok (some data) =>
      match jsonParse data with
      | some j => .ok (some j)
      | none => .ok none

/-- Check whether an alert was recently sent, via existence of the dedup
marker key `alert:<deviceId>:<reason>`. Reports `false` when disconnected or
when the client call fails (fail open: allow the alert). -/
def wasAlertRecentlySent (st : RedisState) (throws : Bool) (deviceId : String)
    (reason : String) : Except Err Bool :=
  if st.isConnected = false then .ok false
  else
    match clientExistsCount st throws ("alert:" ++ deviceId ++ ":" ++ reason) with
    | .ok n => .ok (decide (n = 1))
    | .error _ => .ok false

/-- Mark an alert as sent by writing `"1"` under the dedup marker key with the
dedup window as expiry. No-op when disconnected; client failures swallowed. -/
def markAlertSent (st : RedisState) (throws : Bool) (deviceId : String)
    (reason : String) (windowSeconds : Nat) : Except Err RedisState :=
  if st.isConnected = false then .ok st
  else
    match clientSetex st throws ("alert:" ++ deviceId ++ ":" ++ reason)
        windowSeconds (.jsonOf (.num 1)) with
    | .ok st' => .ok st'
    | .error _ => .ok st

end RedisService

/-- Observable interactions of the alert pipeline with the cache and the
outbound notifier, recorded as an event trace: a dedup-marker existence check
(with its outcome), a dedup-marker write call (with the expiry passed), and a
delivery attempt (with its success flag). -/
inductive Ev where
  | dedupCheck (key : String) (found : Bool)
  | markSet (key : String) (ttl : Nat)
  | deliverAttempt (alert : AlertDto) (ok : Bool)
deriving DecidableEq

/-- Environment of the alert service: webhook configuration, the dedup window,
and the failure oracles for the cache client and the webhook delivery. -/
structure AlertEnv where
  webhookUrl : String
  dedupWindow : Nat
  redisThrows : Bool
  delivery : AlertDto → Except DeliveryError Nat

/-- Success flag of a delivery attempt under the environment's oracle. -/
def deliveryOk (env : AlertEnv) (a : AlertDto) : Bool :=
  match env.delivery a with
  | .ok _ => true
  | .error _ => false

namespace AlertService

/-- Temperature alert threshold (fixed policy constant). -/
def TEMPERATURE_THRESHOLD : ℚ := 50

/-- Humidity alert threshold (fixed policy constant). -/
def HUMIDITY_THRESHOLD : ℚ := 90

/-- Dedup marker key for a device and reason, `alert:<deviceId>:<reason>`. -/
def alertKey (deviceId : String) (r : AlertReason) : String :=
  "alert:" ++ deviceId ++ ":" ++ r.str

/-- Decide whether an alert should be sent: it should unless a dedup marker
for the pair was recently written. -/
def shouldSendAlert (env : AlertEnv) (st : RedisState) (deviceId : String)
    (reason : AlertReason) : Except Err Bool :=
  match RedisService.wasAlertRecentlySent st env.redisThrows deviceId reason.str with
  | .error e => .error e
  | .ok wasRecentlySent => .ok (!wasRecentlySent)

/-- Send one alert to the webhook. The delivery call may fail (network error,
non-success status, timeout); the failure is caught, logged and not rethrown,
so the function always returns normally with the attempt recorded. -/
def sendAlert (env : AlertEnv) (alert : AlertDto) : Except Err (List Ev) :=
  match env.delivery alert with
  | .ok _status => .ok [.deliverAttempt alert true]
  | .error _e => .ok [.deliverAttempt alert false]

/-- Send a list of alerts in order (the `for … await sendAlert` loop). -/
def sendAll (env : AlertEnv) : List AlertDto → Except Err (List Ev)
  | [] => .ok []
  | a :: rest =>
    match sendAlert env a with
    | .error e => .error e
    | .ok evs =>
      match sendAll env rest with
      | .error e => .error e
      | .ok evs' => .ok (evs ++ evs')

/-- One threshold branch of `checkAndAlert`. The temperature and humidity
blocks of the source are identical up to the reason, the metric value and the
threshold, so they are translated as one parametric definition. If the metric
exceeds the threshold: consult the dedup marker; when absent, queue the alert
and write the marker with the configured window; when present, suppress.
Below the threshold nothing at all happens for this reason. -/
def checkReasonBranch (env : AlertEnv) (st : RedisState)
    (deviceId siteId : String) (ts : Int) (reason : AlertReason)
    (value threshold : ℚ) :
    Except Err (RedisState × List AlertDto × List Ev) :=
  if threshold < value then
    match shouldSendAlert env st deviceId reason with
    | .error e => .error e
    | .ok shouldSend =>
      if shouldSend then
        match RedisService.markAlertSent st env.redisThrows deviceId reason.str
            env.dedupWindow with
        | .error e => .error e
        | .ok st' =>
          .ok (st', [⟨deviceId, siteId, ts, reason, value⟩],
            [.dedupCheck (alertKey deviceId reason) false,
             .markSet (alertKey deviceId reason) env.dedupWindow])
      else .ok (st, [], [.dedupCheck (alertKey deviceId reason) true])
  else .ok (st, [], [])

/-- Check a reading against both thresholds, deduplicate, queue and deliver
the resulting alerts. Returns the cache state after the marker writes, the
alerts produced, and the event trace. -/
def checkAndAlert (env : AlertEnv) (st : RedisState) (deviceId siteId : String)
    (ts : Int) (temperature humidity : ℚ) :
    Except Err (RedisState × List AlertDto × List Ev) :=
  match checkReasonBranch env st deviceId siteId ts .HIGH_TEMPERATURE
      temperature TEMPERATURE_THRESHOLD with
  | .error e => .error e
  | .ok (st1, alerts1, evs1) =>
    match checkReasonBranch env st1 deviceId siteId ts .HIGH_HUMIDITY
        humidity HUMIDITY_THRESHOLD with
    | .error e => .error e
    | .ok (st2, alerts2, evs2) =>
      match sendAll env (alerts1 ++ alerts2) with
      | .error e => .error e
      | .ok evs3 => .ok (st2, alerts1 ++ alerts2, evs1 ++ evs2 ++ evs3)

end AlertService

/-- Run a fire-and-forget promise: its result is used if it resolves, and its
error is caught, logged and discarded (`.catch(log)`), leaving the fallback. -/
def fireAndForget {α : Type} (x : Except Err α) (fallback : α) : α :=
  match x with
  | .ok v => v
  | .error _ => fallback

/-- Environment of the ingestion path: whether the batched durable insert
succeeds, the cache-write failure oracle, and the alert environment. -/
structure IngestEnv where
  insertOK : Bool
  cacheThrows : Bool
  alert : AlertEnv

/-- Model of `insertMany` on the durable store: on success returns the created
documents (one per reading, in order) and the grown store; on failure the
whole batched insert fails with a storage error. -/
def insertMany (insertOK : Bool) (dbStore : List TelemetryDto)
    (docs : List TelemetryDto) :
    Except Err (List TelemetryDto × List TelemetryDto) :=
  if insertOK then .ok (docs, dbStore ++ docs) else .error .storage

/-- Outcome of one ingestion call: the caller-visible response (accepted count
or storage error, as surfaced by the controller's `count: result.length`),
the durable store, the cache state, and the alert artefacts of the background
work. -/
structure IngestOutcome where
  response : Except Err Nat
  dbStore : List TelemetryDto
  redis : RedisState
  alerts : List AlertDto
  events : List Ev

namespace TelemetryService

/-- Cache the latest reading for a device (the cached payload carries the
reading's own fields; the store-assigned metadata is omitted from the model). -/
def cacheLatestReading (env : IngestEnv) (st : RedisState)
    (reading : TelemetryDto) : Except Err RedisState :=
  RedisService.cacheLatest st env.cacheThrows reading.deviceId reading

/-- Per-reading background work of ingestion: a fire-and-forget cache write
followed by a fire-and-forget alert evaluation, for each reading in order.
Both are wrapped so that any failure is caught and discarded. -/
def processReadings (env : IngestEnv) (st : RedisState) :
    List TelemetryDto → RedisState × List AlertDto × List Ev
  | [] => (st, [], [])
  | r :: rest =>
    let st1 := fireAndForget (cacheLatestReading env st r) st
    let (st2, alerts1, evs1) :=
      fireAndForget
        (AlertService.checkAndAlert env.alert st1 r.deviceId r.siteId r.ts
          r.metrics.temperature r.metrics.humidity)
        (st1, [], [])
    let (st3, alerts2, evs2) := processReadings env st2 rest
    (st3, alerts1 ++ alerts2, evs1 ++ evs2)

/-- Ingest a batch of readings: one batched durable insert (whose failure
fails the whole call), then per-reading background cache and alert work whose
outcome never reaches the response. The response carries the number of
inserted documents. -/
def ingestTelemetry (env : IngestEnv) (st : RedisState)
    (dbStore : List TelemetryDto) (readings : List TelemetryDto) :
    IngestOutcome :=
  match insertMany env.insertOK dbStore readings with
  | .error e =>
    { response := .error e, dbStore := dbStore, redis := st,
      alerts := [], events := [] }
  | .ok (documents, dbStore') =>
    let (st', alerts, evs) := processReadings env st readings
    { response := .ok documents.length, dbStore := dbStore', redis := st',
      alerts := alerts, events := evs }

/-- Durable-store query for the most recent reading of a device
(`findOne({deviceId}).sort({ts:-1})`): a matching record of maximal `ts`. -/
def findLatestByDevice : List TelemetryDto → String → Option TelemetryDto
  | [], _ => none
  | r :: rest, deviceId =>
    match findLatestByDevice rest deviceId with
    | none => if r.deviceId = deviceId then some r else none
    | some b =>
      if r.deviceId = deviceId ∧ b.ts < r.ts then some r else some b

/-- Result of the latest-reading lookup: the parsed cached value on a cache
hit, or the durable record on fallback. -/
inductive LatestResult where
  | fromCache (j : Json)
  | fromStore (r : TelemetryDto)
deriving DecidableEq

/-- Latest-reading lookup: cache first; a truthy cached value is returned
immediately. On a miss, query the durable store; if a record exists,
best-effort re-cache it (fire and forget) and return it, otherwise fail with
NotFound. -/
def getLatest (throws : Bool) (st : RedisState) (dbStore : List TelemetryDto)
    (deviceId : String) : Except Err (LatestResult × RedisState) :=
  let fallbackRes : Except Err (LatestResult × RedisState) :=
    match findLatestByDevice dbStore deviceId with
    | none => .error (.notFound deviceId)
    | some latest =>
      let st' := fireAndForget (RedisService.cacheLatest st throws deviceId latest) st
      .ok (.fromStore latest, st')
  match RedisService.getLatest st throws deviceId with
  | .error e => .error e
  | .ok (some cached) =>
    if cached.truthy then .ok (.fromCache cached, st) else fallbackRes
  | .ok none => fallbackRes

end TelemetryService

/-- Rounding of an exact rational to the nearest integer, ties to the nearest
even integer — the rounding used by the store's `$round` aggregation
operator. -/
def roundHalfEven (q : ℚ) : Int :=
  let n := ⌊q⌋
  if q - n < 1/2 then n
  else if 1/2 < q - n then n + 1
  else if n % 2 = 0 then n else n + 1

/-- Rounding to 2 decimal places (`$round [x, 2]`). -/
def round2 (q : ℚ) : ℚ := (roundHalfEven (q * 100) : ℚ) / 100

/-- Site summary response: all fields numeric, zeros when nothing matched. -/
structure SiteSummaryResponseDto where
  count : Nat
  avgTemperature : ℚ
  maxTemperature : ℚ
  avgHumidity : ℚ
  maxHumidity : ℚ
  uniqueDevices : Nat
deriving DecidableEq

namespace TelemetryService

/-- Match stage of the summary pipeline: site equal and timestamp in the
closed interval `[fromTs, toTs]` (`$gte` / `$lte`). -/
def matchStage (siteId : String) (fromTs toTs : Int)
    (dbStore : List TelemetryDto) : List TelemetryDto :=
  dbStore.filter fun r =>
    r.siteId == siteId && decide (fromTs ≤ r.ts) && decide (r.ts ≤ toTs)

/-- Accumulator of the group stage: running count, sums (for `$avg`), maxima,
and the `$addToSet` list of device ids. -/
structure GroupAcc where
  count : Nat
  sumTemperature : ℚ
  maxTemperature : ℚ
  sumHumidity : ℚ
  maxHumidity : ℚ
  devices : List String
deriving DecidableEq

/-- Group accumulator seeded from the first matched document. -/
def groupInit (r : TelemetryDto) : GroupAcc :=
  ⟨1, r.metrics.temperature, r.metrics.temperature,
   r.metrics.humidity, r.metrics.humidity, [r.deviceId]⟩

/-- The `$addToSet` accumulator: add the device id unless already present. -/
def addToSet (s : List String) (d : String) : List String :=
  if d ∈ s then s else s ++ [d]

/-- One step of the group stage over a matched document. -/
def groupStep (acc : GroupAcc) (r : TelemetryDto) : GroupAcc :=
  ⟨acc.count + 1,
   acc.sumTemperature + r.metrics.temperature,
   max acc.maxTemperature r.metrics.temperature,
   acc.sumHumidity + r.metrics.humidity,
   max acc.maxHumidity r.metrics.humidity,
   addToSet acc.devices r.deviceId⟩

/-- Group stage: no documents yield no group (the aggregate result list is
empty); otherwise fold the accumulators over the matched documents. -/
def groupStage : List TelemetryDto → Option GroupAcc
  | [] => none
  | r :: rest => some (rest.foldl groupStep (groupInit r))

/-- Project stage: averages are sum over count, all four aggregates rounded
to 2 decimal places, `uniqueDevices` the size of the `$addToSet` list. -/
def projectStage (acc : GroupAcc) : SiteSummaryResponseDto :=
  { count := acc.count,
    avgTemperature := round2 (acc.sumTemperature / (acc.count : ℚ)),
    maxTemperature := round2 acc.maxTemperature,
    avgHumidity := round2 (acc.sumHumidity / (acc.count : ℚ)),
    maxHumidity := round2 acc.maxHumidity,
    uniqueDevices := acc.devices.length }

/-- Site summary: run the aggregation pipeline; when it produces no result
(nothing matched), return the all-zeros statistics instead of failing. -/
def getSiteSummary (dbStore : List TelemetryDto) (siteId : String)
    (fromTs toTs : Int) : SiteSummaryResponseDto :=
  match groupStage (matchStage siteId fromTs toTs dbStore) with
  | none => ⟨0, 0, 0, 0, 0, 0⟩
  | some acc => projectStage acc

end TelemetryService

/-- Metric of a reading selected by an alert reason (statement vocabulary for
the per-reason claims). -/
def metricOf (r : AlertReason) (temperature humidity : ℚ) : ℚ :=
  match r with
  | .HIGH_TEMPERATURE => temperature
  | .HIGH_HUMIDITY => humidity

/-- Threshold guarding an alert reason (statement vocabulary). -/
def thresholdOf (r : AlertReason) : ℚ :=
  match r with
  | .HIGH_TEMPERATURE => AlertService.TEMPERATURE_THRESHOLD
  | .HIGH_HUMIDITY => AlertService.HUMIDITY_THRESHOLD

/-- Value the cache-first step of the latest-reading lookup yields: a parsed,
truthy cached value, if any (statement vocabulary for the read-path claims). -/
def cacheYield (st : RedisState) (throws : Bool) (deviceId : String) :
    Option Json :=
  match RedisService.getLatest st throws deviceId with
  | .ok (some j) => if j.truthy then some j else none
  | _ => none

/-- Caller-visible result of a latest-reading lookup, with the background
cache-repopulation state stripped. -/
def resultOf (x : Except Err (TelemetryService.LatestResult × RedisState)) :
    Except Err TelemetryService.LatestResult :=
  x.map Prod.fst

/-! Helper lemmas about the cache store. -/

lemma lookupEntry_eraseKey (l : List CacheEntry) (k k' : String) (h : k' ≠ k) :
    lookupEntry (eraseKey l k) k' = lookupEntry l k' := by
  induction l with
  | nil => rfl
  | cons e es ih =>
    by_cases he : e.key = k
    · have hkk : ¬ (k = k') := fun hk => h hk.symm
      simp [eraseKey, lookupEntry, he, hkk, ih]
    · simp only [eraseKey, he, if_false, lookupEntry]
      by_cases he' : e.key = k' <;> simp [he', ih]

lemma lookupEntry_insert_self (l : List CacheEntry) (k : String) (v : CacheVal)
    (ttl : Nat) :
    lookupEntry (⟨k, v, ttl⟩ :: eraseKey l k) k = some (v, ttl) := by
  simp [lookupEntry]

lemma lookupEntry_insert_other (l : List CacheEntry) (k k' : String)
    (v : CacheVal) (ttl : Nat) (h : k' ≠ k) :
    lookupEntry (⟨k, v, ttl⟩ :: eraseKey l k) k' = lookupEntry l k' := by
  have hk : ¬ (k = k') := fun hk => h hk.symm
  simp only [lookupEntry, hk, if_false]
  exact lookupEntry_eraseKey l k k' h

/-! Closed forms of the cache service operations: none of them can raise, and
their value is determined by the connection flag, the throw oracle and the
store contents. -/

lemma RedisService.getLatest_spec (st : RedisState) (throws : Bool)
    (d : String) :
    RedisService.getLatest st throws d =
      .ok (if st.isConnected && !throws then
             (lookupKey st.store ("latest:" ++ d)).bind jsonParse
           else none) := by
  unfold RedisService.getLatest clientGet
  cases hc : st.isConnected <;> cases throws <;>
    simp [hc] <;> cases lookupKey st.store ("latest:" ++ d) <;> simp <;>
    rename_i v <;> cases v <;> simp [jsonParse]

lemma RedisService.wasAlertRecentlySent_spec (st : RedisState) (throws : Bool)
    (d reason : String) :
    RedisService.wasAlertRecentlySent st throws d reason =
      .ok (st.isConnected && !throws &&
        (lookupKey st.store ("alert:" ++ d ++ ":" ++ reason)).isSome) := by
  unfold RedisService.wasAlertRecentlySent clientExistsCount
  cases hc : st.isConnected <;> cases throws <;>
    simp [hc] <;> cases lookupKey st.store ("alert:" ++ d ++ ":" ++ reason) <;>
    simp

lemma RedisService.cacheLatest_spec (st : RedisState) (throws : Bool)
    (d : String) (data : TelemetryDto) (ttl : Nat) :
    RedisService.cacheLatest st throws d data ttl =
      .ok (if st.isConnected && !throws then
             { st with store := ⟨"latest:" ++ d, .jsonOf (.reading data), ttl⟩ ::
                 eraseKey st.store ("latest:" ++ d) }
           else st) := by
  unfold RedisService.cacheLatest clientSetex
  cases hc : st.isConnected <;> cases throws <;> simp [hc]

lemma RedisService.markAlertSent_spec (st : RedisState) (throws : Bool)
    (d reason : String) (w : Nat) :
    RedisService.markAlertSent st throws d reason w =
      .ok (if st.isConnected && !throws then
             { st with store := ⟨"alert:" ++ d ++ ":" ++ reason,
                 .jsonOf (.num 1), w⟩ ::
                 eraseKey st.store ("alert:" ++ d ++ ":" ++ reason) }
           else st) := by
  unfold RedisService.markAlertSent clientSetex
  cases hc : st.isConnected <;> cases throws <;> simp [hc]

/-! Helper lemmas about the alert dispatcher. -/

lemma alertKey_ne_of_reason (d : String) :
    AlertService.alertKey d .HIGH_TEMPERATURE ≠
      AlertService.alertKey d .HIGH_HUMIDITY := by
  intro hEq
  have h2 := congrArg String.length hEq
  simp only [AlertService.alertKey, AlertReason.str, String.length_append] at h2
  have e1 : ("HIGH_TEMPERATURE" : String).length = 16 := by decide
  have e2 : ("HIGH_HUMIDITY" : String).length = 13 := by decide
  rw [e1, e2] at h2
  omega

lemma alertKey_ne_symm (d : String) :
    AlertService.alertKey d .HIGH_HUMIDITY ≠
      AlertService.alertKey d .HIGH_TEMPERATURE :=
  fun h => alertKey_ne_of_reason d h.symm

lemma AlertService.sendAlert_spec (env : AlertEnv) (a : AlertDto) :
    AlertService.sendAlert env a = .ok [.deliverAttempt a (deliveryOk env a)] := by
  unfold AlertService.sendAlert deliveryOk
  cases env.delivery a <;> simp

lemma AlertService.sendAll_spec (env : AlertEnv) (alerts : List AlertDto) :
    AlertService.sendAll env alerts =
      .ok (alerts.map fun a => .deliverAttempt a (deliveryOk env a)) := by
  induction alerts with
  | nil => rfl
  | cons a rest ih =>
    simp [AlertService.sendAll, AlertService.sendAlert_spec, ih]

/-- State left by the marker write of one successful (non-suppressed) branch. -/
def markedState (env : AlertEnv) (st : RedisState) (d : String)
    (r : AlertReason) : RedisState :=
  if st.isConnected && !env.redisThrows then
    { st with store := ⟨AlertService.alertKey d r, .jsonOf (.num 1),
        env.dedupWindow⟩ :: eraseKey st.store (AlertService.alertKey d r) }
  else st

/-- Whether the dedup gate of a branch sees an existing marker. -/
def gateFound (env : AlertEnv) (st : RedisState) (d : String)
    (r : AlertReason) : Bool :=
  st.isConnected && !env.redisThrows &&
    (lookupKey st.store (AlertService.alertKey d r)).isSome

lemma AlertService.checkReasonBranch_spec (env : AlertEnv) (st : RedisState)
    (d s : String) (ts : Int) (r : AlertReason) (v thr : ℚ) :
    AlertService.checkReasonBranch env st d s ts r v thr =
      .ok (if thr < v then
             (if gateFound env st d r then
               (st, [], [.dedupCheck (AlertService.alertKey d r) true])
             else
               (markedState env st d r, [⟨d, s, ts, r, v⟩],
                [.dedupCheck (AlertService.alertKey d r) false,
                 .markSet (AlertService.alertKey d r) env.dedupWindow]))
           else (st, [], [])) := by
  unfold AlertService.checkReasonBranch AlertService.shouldSendAlert
  by_cases hv : thr < v
  · rw [RedisService.wasAlertRecentlySent_spec]
    have hkey : "alert:" ++ d ++ ":" ++ r.str = AlertService.alertKey d r := rfl
    rw [hkey]
    simp only [hv, if_true, gateFound, markedState]
    cases hg : (st.isConnected && !env.redisThrows &&
        (lookupKey st.store (AlertService.alertKey d r)).isSome)
    · simp only [Bool.not_false, if_true, if_false]
      rw [RedisService.markAlertSent_spec, hkey]
      simp
    · simp
  · simp [hv]

/-- Pure value of one threshold branch (derived normal form of
`checkReasonBranch`, which never raises). -/
def branchPure (env : AlertEnv) (st : RedisState) (d s : String) (ts : Int)
    (r : AlertReason) (v thr : ℚ) : RedisState × List AlertDto × List Ev :=
  if thr < v then
    (if gateFound env st d r then
      (st, [], [.dedupCheck (AlertService.alertKey d r) true])
    else
      (markedState env st d r, [⟨d, s, ts, r, v⟩],
       [.dedupCheck (AlertService.alertKey d r) false,
        .markSet (AlertService.alertKey d r) env.dedupWindow]))
  else (st, [], [])

lemma AlertService.checkReasonBranch_specP (env : AlertEnv) (st : RedisState)
    (d s : String) (ts : Int) (r : AlertReason) (v thr : ℚ) :
    AlertService.checkReasonBranch env st d s ts r v thr =
      .ok (branchPure env st d s ts r v thr) := by
  rw [AlertService.checkReasonBranch_spec]; rfl

/-- Pure value of a full `checkAndAlert` run: both branches in sequence, then
one delivery attempt per queued alert. -/
def checkPure (env : AlertEnv) (st : RedisState) (d s : String) (ts : Int)
    (t h : ℚ) : RedisState × List AlertDto × List Ev :=
  let b1 := branchPure env st d s ts .HIGH_TEMPERATURE t
    AlertService.TEMPERATURE_THRESHOLD
  let b2 := branchPure env b1.1 d s ts .HIGH_HUMIDITY h
    AlertService.HUMIDITY_THRESHOLD
  (b2.1, b1.2.1 ++ b2.2.1,
   b1.2.2 ++ b2.2.2 ++
     (b1.2.1 ++ b2.2.1).map (fun a => .deliverAttempt a (deliveryOk env a)))

lemma AlertService.checkAndAlert_spec (env : AlertEnv) (st : RedisState)
    (d s : String) (ts : Int) (t h : ℚ) :
    AlertService.checkAndAlert env st d s ts t h =
      .ok (checkPure env st d s ts t h) := by
  rcases hb1 : branchPure env st d s ts .HIGH_TEMPERATURE t
    AlertService.TEMPERATURE_THRESHOLD with ⟨st1, a1, e1⟩
  rcases hb2 : branchPure env st1 d s ts .HIGH_HUMIDITY h
    AlertService.HUMIDITY_THRESHOLD with ⟨st2, a2, e2⟩
  unfold AlertService.checkAndAlert checkPure
  rw [AlertService.checkReasonBranch_specP, hb1]
  simp only
  rw [AlertService.checkReasonBranch_specP, hb2]
  simp only
  rw [AlertService.sendAll_spec]

lemma branchPure_state (env : AlertEnv) (st : RedisState) (d s : String)
    (ts : Int) (r : AlertReason) (v thr : ℚ) :
    (branchPure env st d s ts r v thr).1 =
      if thr < v then
        (if gateFound env st d r then st else markedState env st d r)
      else st := by
  unfold branchPure
  by_cases hv : thr < v <;> by_cases hg : gateFound env st d r <;> simp [hv, hg]

lemma branchPure_alerts (env : AlertEnv) (st : RedisState) (d s : String)
    (ts : Int) (r : AlertReason) (v thr : ℚ) :
    (branchPure env st d s ts r v thr).2.1 =
      if thr < v then
        (if gateFound env st d r then [] else [⟨d, s, ts, r, v⟩])
      else [] := by
  unfold branchPure
  by_cases hv : thr < v <;> by_cases hg : gateFound env st d r <;> simp [hv, hg]

lemma branchPure_evs (env : AlertEnv) (st : RedisState) (d s : String)
    (ts : Int) (r : AlertReason) (v thr : ℚ) :
    (branchPure env st d s ts r v thr).2.2 =
      if thr < v then
        (if gateFound env st d r then
          [.dedupCheck (AlertService.alertKey d r) true]
        else
          [.dedupCheck (AlertService.alertKey d r) false,
           .markSet (AlertService.alertKey d r) env.dedupWindow])
      else [] := by
  unfold branchPure
  by_cases hv : thr < v <;> by_cases hg : gateFound env st d r <;> simp [hv, hg]

lemma lookupEntry_markedState_self (env : AlertEnv) (st : RedisState)
    (d : String) (r : AlertReason) (hc : st.isConnected = true)
    (ht : env.redisThrows = false) :
    lookupEntry (markedState env st d r).store (AlertService.alertKey d r) =
      some (.jsonOf (.num 1), env.dedupWindow) := by
  unfold markedState
  simp only [hc, ht, Bool.not_false, Bool.and_true, if_true]
  exact lookupEntry_insert_self _ _ _ _

lemma lookupEntry_markedState_other (env : AlertEnv) (st : RedisState)
    (d : String) (r r' : AlertReason)
    (h : AlertService.alertKey d r' ≠ AlertService.alertKey d r) :
    lookupEntry (markedState env st d r).store (AlertService.alertKey d r') =
      lookupEntry st.store (AlertService.alertKey d r') := by
  unfold markedState
  by_cases hc : (st.isConnected && !env.redisThrows) = true
  · simp only [hc, if_true]
    exact lookupEntry_insert_other _ _ _ _ _ h
  · simp [hc]

lemma lookupEntry_branchPure_other (env : AlertEnv) (st : RedisState)
    (d s : String) (ts : Int) (r : AlertReason) (v thr : ℚ) (r' : AlertReason)
    (h : AlertService.alertKey d r' ≠ AlertService.alertKey d r) :
    lookupEntry ((branchPure env st d s ts r v thr).1).store
        (AlertService.alertKey d r') =
      lookupEntry st.store (AlertService.alertKey d r') := by
  rw [branchPure_state]
  by_cases hv : thr < v
  · by_cases hg : gateFound env st d r
    · simp [hv, hg]
    · simp only [hv, hg, if_true, if_false]
      exact lookupEntry_markedState_other env st d r r' h
  · simp [hv]

lemma branchPure_evs_shape (env : AlertEnv) (st : RedisState) (d s : String)
    (ts : Int) (r : AlertReason) (v thr : ℚ) :
    ∀ ev ∈ (branchPure env st d s ts r v thr).2.2,
      (∃ b, ev = .dedupCheck (AlertService.alertKey d r) b) ∨
      (∃ w, ev = .markSet (AlertService.alertKey d r) w) := by
  intro ev hev
  rw [branchPure_evs] at hev
  by_cases hv : thr < v
  · by_cases hg : gateFound env st d r
    · simp only [hv, hg, if_true, List.mem_singleton] at hev
      exact .inl ⟨true, hev⟩
    · have hev' : ev ∈ [Ev.dedupCheck (AlertService.alertKey d r) false,
          Ev.markSet (AlertService.alertKey d r) env.dedupWindow] := by
        simpa [hv, hg] using hev
      cases hev' with
      | head => exact .inl ⟨false, rfl⟩
      | tail _ h2 =>
        cases h2 with
        | head => exact .inr ⟨env.dedupWindow, rfl⟩
        | tail _ h3 => cases h3
  · simp [hv] at hev

lemma branchPure_alerts_shape (env : AlertEnv) (st : RedisState) (d s : String)
    (ts : Int) (r : AlertReason) (v thr : ℚ) :
    ∀ a ∈ (branchPure env st d s ts r v thr).2.1, a = ⟨d, s, ts, r, v⟩ := by
  intro a ha
  rw [branchPure_alerts] at ha
  by_cases hv : thr < v
  · by_cases hg : gateFound env st d r <;> simp [hv, hg] at ha
    exact ha
  · simp [hv] at ha

lemma branchPure_no_markSet_of_found (env : AlertEnv) (st : RedisState)
    (d s : String) (ts : Int) (r : AlertReason) (v thr : ℚ)
    (hg : gateFound env st d r = true) :
    ∀ w, Ev.markSet (AlertService.alertKey d r) w ∉
      (branchPure env st d s ts r v thr).2.2 := by
  intro w hmem
  rw [branchPure_evs] at hmem
  by_cases hv : thr < v <;> simp [hv, hg] at hmem

lemma branchPure_alerts_empty_of_found (env : AlertEnv) (st : RedisState)
    (d s : String) (ts : Int) (r : AlertReason) (v thr : ℚ)
    (hg : gateFound env st d r = true) :
    (branchPure env st d s ts r v thr).2.1 = [] := by
  rw [branchPure_alerts]
  by_cases hv : thr < v <;> simp [hv, hg]

lemma branchPure_isConnected (env : AlertEnv) (st : RedisState) (d s : String)
    (ts : Int) (r : AlertReason) (v thr : ℚ) :
    ((branchPure env st d s ts r v thr).1).isConnected = st.isConnected := by
  rw [branchPure_state]
  by_cases hv : thr < v
  · by_cases hg : gateFound env st d r
    · simp [hv, hg]
    · simp only [hv, hg, if_true, if_false]
      unfold markedState
      by_cases hc : (st.isConnected && !env.redisThrows) = true <;> simp [hc]
  · simp [hv]

lemma no_dedupCheck_in_deliver_map (env : AlertEnv) (l : List AlertDto)
    (k : String) (b : Bool) :
    Ev.dedupCheck k b ∉ l.map (fun a => Ev.deliverAttempt a (deliveryOk env a)) := by
  simp

lemma no_markSet_in_deliver_map (env : AlertEnv) (l : List AlertDto)
    (k : String) (w : Nat) :
    Ev.markSet k w ∉ l.map (fun a => Ev.deliverAttempt a (deliveryOk env a)) := by
  simp

lemma off_branch_evs (env : AlertEnv) (st : RedisState) (d s : String)
    (ts : Int) (r r' : AlertReason)
    (hne : AlertService.alertKey d r ≠ AlertService.alertKey d r')
    (v thr : ℚ) :
    (∀ b, Ev.dedupCheck (AlertService.alertKey d r) b ∉
        (branchPure env st d s ts r' v thr).2.2) ∧
    (∀ w, Ev.markSet (AlertService.alertKey d r) w ∉
        (branchPure env st d s ts r' v thr).2.2) := by
  constructor
  · intro b hmem
    rcases branchPure_evs_shape env st d s ts r' v thr _ hmem with
      ⟨b', hb'⟩ | ⟨w', hw'⟩
    · exact hne (Ev.dedupCheck.inj hb').1
    · simp at hw'
  · intro w hmem
    rcases branchPure_evs_shape env st d s ts r' v thr _ hmem with
      ⟨b', hb'⟩ | ⟨w', hw'⟩
    · simp at hb'
    · exact hne (Ev.markSet.inj hw').1

lemma branchPure_alerts_reason (env : AlertEnv) (st : RedisState)
    (d s : String) (ts : Int) (r : AlertReason) (v thr : ℚ) :
    ∀ a ∈ (branchPure env st d s ts r v thr).2.1, a.reason = r := by
  intro a ha
  rw [branchPure_alerts_shape env st d s ts r v thr a ha]

lemma no_deliver_of_reason_map (env : AlertEnv) (l : List AlertDto)
    (r : AlertReason) (hl : ∀ a ∈ l, a.reason ≠ r) :
    ∀ a b, a.reason = r →
      Ev.deliverAttempt a b ∉
        l.map (fun a => Ev.deliverAttempt a (deliveryOk env a)) := by
  intro a b hr hmem
  rcases List.mem_map.mp hmem with ⟨a', hm, heq⟩
  simp only [Ev.deliverAttempt.injEq] at heq
  exact hl a' hm (by rw [heq.1, hr])

/-- C2. For every reading, a HIGH_TEMPERATURE alert is a candidate (its
threshold branch runs a dedup check) if and only if the temperature is
strictly greater than 50, and a HIGH_HUMIDITY alert is a candidate if and
only if the humidity is strictly greater than 90; at temperature exactly 50
or humidity exactly 90 the branch does nothing for that reason. -/
theorem checkAndAlert_candidate_iff_threshold (env : AlertEnv)
    (st : RedisState) (d s : String) (ts : Int) (t hum : ℚ)
    (st' : RedisState) (alerts : List AlertDto) (evs : List Ev)
    (hrun : AlertService.checkAndAlert env st d s ts t hum =
      .ok (st', alerts, evs)) :
    ((∃ b, Ev.dedupCheck (AlertService.alertKey d .HIGH_TEMPERATURE) b ∈ evs)
        ↔ (50 : ℚ) < t) ∧
    ((∃ b, Ev.dedupCheck (AlertService.alertKey d .HIGH_HUMIDITY) b ∈ evs)
        ↔ (90 : ℚ) < hum) := by
  rw [AlertService.checkAndAlert_spec] at hrun
  have hEq := Except.ok.inj hrun
  have hevs : evs = (checkPure env st d s ts t hum).2.2 :=
    (congrArg (fun p => p.2.2) hEq).symm
  subst hevs
  unfold checkPure
  simp only [branchPure_evs, branchPure_alerts, branchPure_state,
    AlertService.TEMPERATURE_THRESHOLD, AlertService.HUMIDITY_THRESHOLD]
  constructor
  · constructor
    · rintro ⟨b, hb⟩
      by_contra hnt
      simp only [hnt, if_false, List.nil_append] at hb
      by_cases hh : (90 : ℚ) < hum <;>
        by_cases hg : gateFound env st d .HIGH_HUMIDITY <;>
          simp [hh, hg, List.mem_append, alertKey_ne_of_reason d] at hb
    · intro ht
      by_cases hg : gateFound env st d .HIGH_TEMPERATURE
      · exact ⟨true, by simp [ht, hg]⟩
      · exact ⟨false, by simp [ht, hg]⟩
  · constructor
    · rintro ⟨b, hb⟩
      by_contra hnh
      simp only [hnh, if_false, List.append_nil] at hb
      by_cases ht : (50 : ℚ) < t <;>
        by_cases hg : gateFound env st d .HIGH_TEMPERATURE <;>
          simp [ht, hg, List.mem_append, alertKey_ne_symm d] at hb
    · intro hh
      by_cases hg : gateFound env
          (if (50 : ℚ) < t then
            (if gateFound env st d .HIGH_TEMPERATURE then st
             else markedState env st d .HIGH_TEMPERATURE)
           else st) d .HIGH_HUMIDITY
      · exact ⟨true, by simp [hh, hg]⟩
      · exact ⟨false, by simp [hh, hg]⟩

/-- C3. For every reading and candidate reason (against a connected,
non-failing cache): a below-threshold metric leaves the marker entry for
`(deviceId, reason)` untouched and records no dedup check, no marker write
and no delivery for that reason; an above-threshold metric with no existing
marker writes the marker with the configured dedup window as its expiry; an
above-threshold metric with an existing marker is suppressed — the marker
entry (value and remaining expiry) is unchanged, no marker write is recorded
and nothing is delivered for that reason. -/
theorem checkAndAlert_marker_writes (env : AlertEnv) (st : RedisState)
    (d s : String) (ts : Int) (t hum : ℚ) (r : AlertReason)
    (st' : RedisState) (alerts : List AlertDto) (evs : List Ev)
    (hconn : st.isConnected = true) (hth : env.redisThrows = false)
    (hrun : AlertService.checkAndAlert env st d s ts t hum =
      .ok (st', alerts, evs)) :
    (¬ thresholdOf r < metricOf r t hum →
        lookupEntry st'.store (AlertService.alertKey d r) =
          lookupEntry st.store (AlertService.alertKey d r) ∧
        (∀ b, Ev.dedupCheck (AlertService.alertKey d r) b ∉ evs) ∧
        (∀ w, Ev.markSet (AlertService.alertKey d r) w ∉ evs) ∧
        (∀ a b, a.reason = r → Ev.deliverAttempt a b ∉ evs)) ∧
    (thresholdOf r < metricOf r t hum →
      lookupEntry st.store (AlertService.alertKey d r) = none →
        lookupEntry st'.store (AlertService.alertKey d r) =
          some (.jsonOf (.num 1), env.dedupWindow)) ∧
    (thresholdOf r < metricOf r t hum →
      ∀ e, lookupEntry st.store (AlertService.alertKey d r) = some e →
        lookupEntry st'.store (AlertService.alertKey d r) = some e ∧
        (∀ w, Ev.markSet (AlertService.alertKey d r) w ∉ evs) ∧
        (∀ a b, a.reason = r → Ev.deliverAttempt a b ∉ evs)) := by
  rcases hb1 : branchPure env st d s ts .HIGH_TEMPERATURE t
    AlertService.TEMPERATURE_THRESHOLD with ⟨st1, a1, e1⟩
  rcases hb2 : branchPure env st1 d s ts .HIGH_HUMIDITY hum
    AlertService.HUMIDITY_THRESHOLD with ⟨st2, a2, e2⟩
  have hcp : checkPure env st d s ts t hum =
      (st2, a1 ++ a2,
       e1 ++ e2 ++
         (a1 ++ a2).map (fun a => Ev.deliverAttempt a (deliveryOk env a))) := by
    unfold checkPure
    rw [hb1]
    simp only
    rw [hb2]
  rw [AlertService.checkAndAlert_spec, hcp] at hrun
  have hEq := Except.ok.inj hrun
  have hst2 : st2 = st' := congrArg (fun p => p.1) hEq
  have hevs : e1 ++ e2 ++
      (a1 ++ a2).map (fun a => Ev.deliverAttempt a (deliveryOk env a)) = evs :=
    congrArg (fun p => p.2.2) hEq
  subst hst2
  subst hevs
  have hb1s : (branchPure env st d s ts .HIGH_TEMPERATURE t
      AlertService.TEMPERATURE_THRESHOLD).1 = st1 := by rw [hb1]
  have hb1a : (branchPure env st d s ts .HIGH_TEMPERATURE t
      AlertService.TEMPERATURE_THRESHOLD).2.1 = a1 := by rw [hb1]
  have hb1e : (branchPure env st d s ts .HIGH_TEMPERATURE t
      AlertService.TEMPERATURE_THRESHOLD).2.2 = e1 := by rw [hb1]
  have hb2s : (branchPure env st1 d s ts .HIGH_HUMIDITY hum
      AlertService.HUMIDITY_THRESHOLD).1 = st2 := by rw [hb2]
  have hb2a : (branchPure env st1 d s ts .HIGH_HUMIDITY hum
      AlertService.HUMIDITY_THRESHOLD).2.1 = a2 := by rw [hb2]
  have hb2e : (branchPure env st1 d s ts .HIGH_HUMIDITY hum
      AlertService.HUMIDITY_THRESHOLD).2.2 = e2 := by rw [hb2]
  have hoff12 := off_branch_evs env st1 d s ts .HIGH_TEMPERATURE .HIGH_HUMIDITY
    (alertKey_ne_of_reason d) hum AlertService.HUMIDITY_THRESHOLD
  rw [hb2e] at hoff12
  have hoff21 := off_branch_evs env st d s ts .HIGH_HUMIDITY .HIGH_TEMPERATURE
    (alertKey_ne_symm d) t AlertService.TEMPERATURE_THRESHOLD
  rw [hb1e] at hoff21
  have hrs1 := branchPure_alerts_reason env st d s ts .HIGH_TEMPERATURE t
    AlertService.TEMPERATURE_THRESHOLD
  rw [hb1a] at hrs1
  have hrs2 := branchPure_alerts_reason env st1 d s ts .HIGH_HUMIDITY hum
    AlertService.HUMIDITY_THRESHOLD
  rw [hb2a] at hrs2
  cases r with
  | HIGH_TEMPERATURE =>
    refine ⟨?_, ?_, ?_⟩
    · intro hnt
      simp only [thresholdOf, metricOf] at hnt
      have he1 : e1 = [] := by rw [← hb1e, branchPure_evs]; simp [hnt]
      have ha1 : a1 = [] := by rw [← hb1a, branchPure_alerts]; simp [hnt]
      have hs1 : st1 = st := by rw [← hb1s, branchPure_state]; simp [hnt]
      refine ⟨?_, ?_, ?_, ?_⟩
      · rw [← hb2s,
          lookupEntry_branchPure_other env st1 d s ts .HIGH_HUMIDITY hum
            AlertService.HUMIDITY_THRESHOLD .HIGH_TEMPERATURE
            (alertKey_ne_of_reason d), hs1]
      · intro b hmem
        rcases List.mem_append.mp hmem with hm | hm
        · rcases List.mem_append.mp hm with hm1 | hm1
          · simp [he1] at hm1
          · exact hoff12.1 b hm1
        · exact no_dedupCheck_in_deliver_map env _ _ b hm
      · intro w hmem
        rcases List.mem_append.mp hmem with hm | hm
        · rcases List.mem_append.mp hm with hm1 | hm1
          · simp [he1] at hm1
          · exact hoff12.2 w hm1
        · exact no_markSet_in_deliver_map env _ _ w hm
      · intro a b hr hmem
        rcases List.mem_append.mp hmem with hm | hm
        · rcases List.mem_append.mp hm with hm1 | hm1
          · simp [he1] at hm1
          · rcases branchPure_evs_shape env st1 d s ts .HIGH_HUMIDITY hum
              AlertService.HUMIDITY_THRESHOLD _ (hb2e ▸ hm1) with
              ⟨b', hb'⟩ | ⟨w', hw'⟩
            · simp at hb'
            · simp at hw'
        · refine no_deliver_of_reason_map env (a1 ++ a2) .HIGH_TEMPERATURE
            ?_ a b hr hm
          intro a' ha'
          rcases List.mem_append.mp ha' with h1 | h2
          · simp [ha1] at h1
          · rw [hrs2 a' h2]; decide
    · intro hv hnone
      simp only [thresholdOf, metricOf] at hv
      have hg : gateFound env st d .HIGH_TEMPERATURE = false := by
        simp [gateFound, lookupKey, hnone]
      have hs1 : st1 = markedState env st d .HIGH_TEMPERATURE := by
        rw [← hb1s, branchPure_state]; simp [hv, hg]
      rw [← hb2s,
        lookupEntry_branchPure_other env st1 d s ts .HIGH_HUMIDITY hum
          AlertService.HUMIDITY_THRESHOLD .HIGH_TEMPERATURE
          (alertKey_ne_of_reason d), hs1]
      exact lookupEntry_markedState_self env st d .HIGH_TEMPERATURE hconn hth
    · intro hv e he
      simp only [thresholdOf, metricOf] at hv
      have hg : gateFound env st d .HIGH_TEMPERATURE = true := by
        simp [gateFound, lookupKey, he, hconn, hth]
      have hs1 : st1 = st := by rw [← hb1s, branchPure_state]; simp [hv, hg]
      have ha1 : a1 = [] := by
        rw [← hb1a]
        exact branchPure_alerts_empty_of_found env st d s ts .HIGH_TEMPERATURE t
          AlertService.TEMPERATURE_THRESHOLD hg
      refine ⟨?_, ?_, ?_⟩
      · rw [← hb2s,
          lookupEntry_branchPure_other env st1 d s ts .HIGH_HUMIDITY hum
            AlertService.HUMIDITY_THRESHOLD .HIGH_TEMPERATURE
            (alertKey_ne_of_reason d), hs1, he]
      · intro w hmem
        rcases List.mem_append.mp hmem with hm | hm
        · rcases List.mem_append.mp hm with hm1 | hm1
          · exact branchPure_no_markSet_of_found env st d s ts .HIGH_TEMPERATURE
              t AlertService.TEMPERATURE_THRESHOLD hg w (hb1e ▸ hm1)
          · exact hoff12.2 w hm1
        · exact no_markSet_in_deliver_map env _ _ w hm
      · intro a b hr hmem
        rcases List.mem_append.mp hmem with hm | hm
        · rcases List.mem_append.mp hm with hm1 | hm1
          · rcases branchPure_evs_shape env st d s ts .HIGH_TEMPERATURE t
              AlertService.TEMPERATURE_THRESHOLD _ (hb1e ▸ hm1) with
              ⟨b', hb'⟩ | ⟨w', hw'⟩
            · simp at hb'
            · simp at hw'
          · rcases branchPure_evs_shape env st1 d s ts .HIGH_HUMIDITY hum
              AlertService.HUMIDITY_THRESHOLD _ (hb2e ▸ hm1) with
              ⟨b', hb'⟩ | ⟨w', hw'⟩
            · simp at hb'
            · simp at hw'
        · refine no_deliver_of_reason_map env (a1 ++ a2) .HIGH_TEMPERATURE
            ?_ a b hr hm
          intro a' ha'
          rcases List.mem_append.mp ha' with h1 | h2
          · simp [ha1] at h1
          · rw [hrs2 a' h2]; decide
  | HIGH_HUMIDITY =>
    refine ⟨?_, ?_, ?_⟩
    · intro hnh
      simp only [thresholdOf, metricOf] at hnh
      have he2 : e2 = [] := by rw [← hb2e, branchPure_evs]; simp [hnh]
      have ha2 : a2 = [] := by rw [← hb2a, branchPure_alerts]; simp [hnh]
      have hs2 : st2 = st1 := by rw [← hb2s, branchPure_state]; simp [hnh]
      refine ⟨?_, ?_, ?_, ?_⟩
      · rw [hs2, ← hb1s,
          lookupEntry_branchPure_other env st d s ts .HIGH_TEMPERATURE t
            AlertService.TEMPERATURE_THRESHOLD .HIGH_HUMIDITY
            (alertKey_ne_symm d)]
      · intro b hmem
        rcases List.mem_append.mp hmem with hm | hm
        · rcases List.mem_append.mp hm with hm1 | hm1
          · exact hoff21.1 b hm1
          · simp [he2] at hm1
        · exact no_dedupCheck_in_deliver_map env _ _ b hm
      · intro w hmem
        rcases List.mem_append.mp hmem with hm | hm
        · rcases List.mem_append.mp hm with hm1 | hm1
          · exact hoff21.2 w hm1
          · simp [he2] at hm1
        · exact no_markSet_in_deliver_map env _ _ w hm
      · intro a b hr hmem
        rcases List.mem_append.mp hmem with hm | hm
        · rcases List.mem_append.mp hm with hm1 | hm1
          · rcases branchPure_evs_shape env st d s ts .HIGH_TEMPERATURE t
              AlertService.TEMPERATURE_THRESHOLD _ (hb1e ▸ hm1) with
              ⟨b', hb'⟩ | ⟨w', hw'⟩
            · simp at hb'
            · simp at hw'
          · simp [he2] at hm1
        · refine no_deliver_of_reason_map env (a1 ++ a2) .HIGH_HUMIDITY
            ?_ a b hr hm
          intro a' ha'
          rcases List.mem_append.mp ha' with h1 | h2
          · rw [hrs1 a' h1]; decide
          · simp [ha2] at h2
    · intro hv hnone
      simp only [thresholdOf, metricOf] at hv
      have hl1 : lookupEntry st1.store (AlertService.alertKey d .HIGH_HUMIDITY) =
          none := by
        rw [← hb1s,
          lookupEntry_branchPure_other env st d s ts .HIGH_TEMPERATURE t
            AlertService.TEMPERATURE_THRESHOLD .HIGH_HUMIDITY
            (alertKey_ne_symm d)]
        exact hnone
      have hc1 : st1.isConnected = true := by
        rw [← hb1s, branchPure_isConnected]; exact hconn
      have hg : gateFound env st1 d .HIGH_HUMIDITY = false := by
        simp [gateFound, lookupKey, hl1]
      have hs2 : st2 = markedState env st1 d .HIGH_HUMIDITY := by
        rw [← hb2s, branchPure_state]; simp [hv, hg]
      rw [hs2]
      exact lookupEntry_markedState_self env st1 d .HIGH_HUMIDITY hc1 hth
    · intro hv e he
      simp only [thresholdOf, metricOf] at hv
      have hl1 : lookupEntry st1.store (AlertService.alertKey d .HIGH_HUMIDITY) =
          some e := by
        rw [← hb1s,
          lookupEntry_branchPure_other env st d s ts .HIGH_TEMPERATURE t
            AlertService.TEMPERATURE_THRESHOLD .HIGH_HUMIDITY
            (alertKey_ne_symm d)]
        exact he
      have hc1 : st1.isConnected = true := by
        rw [← hb1s, branchPure_isConnected]; exact hconn
      have hg : gateFound env st1 d .HIGH_HUMIDITY = true := by
        simp [gateFound, lookupKey, hl1, hc1, hth]
      have hs2 : st2 = st1 := by rw [← hb2s, branchPure_state]; simp [hv, hg]
      have ha2 : a2 = [] := by
        rw [← hb2a]
        exact branchPure_alerts_empty_of_found env st1 d s ts .HIGH_HUMIDITY hum
          AlertService.HUMIDITY_THRESHOLD hg
      refine ⟨?_, ?_, ?_⟩
      · rw [hs2]; exact hl1
      · intro w hmem
        rcases List.mem_append.mp hmem with hm | hm
        · rcases List.mem_append.mp hm with hm1 | hm1
          · exact hoff21.2 w hm1
          · exact branchPure_no_markSet_of_found env st1 d s ts .HIGH_HUMIDITY
              hum AlertService.HUMIDITY_THRESHOLD hg w (hb2e ▸ hm1)
        · exact no_markSet_in_deliver_map env _ _ w hm
      · intro a b hr hmem
        rcases List.mem_append.mp hmem with hm | hm
        · rcases List.mem_append.mp hm with hm1 | hm1
          · rcases branchPure_evs_shape env st d s ts .HIGH_TEMPERATURE t
              AlertService.TEMPERATURE_THRESHOLD _ (hb1e ▸ hm1) with
              ⟨b', hb'⟩ | ⟨w', hw'⟩
            · simp at hb'
            · simp at hw'
          · rcases branchPure_evs_shape env st1 d s ts .HIGH_HUMIDITY hum
              AlertService.HUMIDITY_THRESHOLD _ (hb2e ▸ hm1) with
              ⟨b', hb'⟩ | ⟨w', hw'⟩
            · simp at hb'
            · simp at hw'
        · refine no_deliver_of_reason_map env (a1 ++ a2) .HIGH_HUMIDITY
            ?_ a b hr hm
          intro a' ha'
          rcases List.mem_append.mp ha' with h1 | h2
          · rw [hrs1 a' h1]; decide
          · simp [ha2] at h2

/-- C4. A single reading with temperature 65 and humidity 95, against a
connected cache holding no entries (so no dedup marker for either reason),
produces exactly two alerts — HIGH_TEMPERATURE with value 65 and
HIGH_HUMIDITY with value 95 — each gated and marked under its own dedup key
`alert:<deviceId>:<reason>`, and each delivered independently. -/
theorem checkAndAlert_dual_alert (env : AlertEnv) (st : RedisState)
    (d s : String) (ts : Int) (st' : RedisState) (alerts : List AlertDto)
    (evs : List Ev)
    (hconn : st.isConnected = true) (hempty : st.store = [])
    (hth : env.redisThrows = false)
    (hrun : AlertService.checkAndAlert env st d s ts 65 95 =
      .ok (st', alerts, evs)) :
    alerts = [⟨d, s, ts, .HIGH_TEMPERATURE, 65⟩,
              ⟨d, s, ts, .HIGH_HUMIDITY, 95⟩] ∧
    evs = [.dedupCheck (AlertService.alertKey d .HIGH_TEMPERATURE) false,
           .markSet (AlertService.alertKey d .HIGH_TEMPERATURE) env.dedupWindow,
           .dedupCheck (AlertService.alertKey d .HIGH_HUMIDITY) false,
           .markSet (AlertService.alertKey d .HIGH_HUMIDITY) env.dedupWindow,
           .deliverAttempt ⟨d, s, ts, .HIGH_TEMPERATURE, 65⟩
             (deliveryOk env ⟨d, s, ts, .HIGH_TEMPERATURE, 65⟩),
           .deliverAttempt ⟨d, s, ts, .HIGH_HUMIDITY, 95⟩
             (deliveryOk env ⟨d, s, ts, .HIGH_HUMIDITY, 95⟩)] ∧
    lookupEntry st'.store (AlertService.alertKey d .HIGH_TEMPERATURE) =
      some (.jsonOf (.num 1), env.dedupWindow) ∧
    lookupEntry st'.store (AlertService.alertKey d .HIGH_HUMIDITY) =
      some (.jsonOf (.num 1), env.dedupWindow) := by
  obtain ⟨sc, sst⟩ := st
  simp only at hconn hempty
  subst hconn
  subst hempty
  rw [AlertService.checkAndAlert_spec] at hrun
  have hne := alertKey_ne_of_reason d
  have hne' := alertKey_ne_symm d
  have h65 : AlertService.TEMPERATURE_THRESHOLD < (65 : ℚ) := by
    norm_num [AlertService.TEMPERATURE_THRESHOLD]
  have h95 : AlertService.HUMIDITY_THRESHOLD < (95 : ℚ) := by
    norm_num [AlertService.HUMIDITY_THRESHOLD]
  unfold checkPure branchPure gateFound markedState at hrun
  simp only [h65, h95, hth, lookupKey, lookupEntry, eraseKey, hne, hne',
    if_true, if_false, Option.map_none, Option.isSome_none, Bool.and_false,
    Bool.not_false, Bool.and_true, Bool.false_and, Bool.and_self,
    List.map_cons, List.map_nil, List.cons_append, List.nil_append] at hrun
  have hEq := Except.ok.inj hrun
  have hst : _ = st' := congrArg (fun p => p.1) hEq
  have halerts : _ = alerts := congrArg (fun p => p.2.1) hEq
  have hevs : _ = evs := congrArg (fun p => p.2.2) hEq
  refine ⟨halerts.symm ▸ rfl, hevs.symm ▸ rfl, ?_, ?_⟩ <;>
    rw [← hst] <;> simp [lookupEntry, hne, hne']

lemma checkAndAlert_no_delivery_of_marker (env : AlertEnv) (st : RedisState)
    (d s : String) (ts : Int) (t hum : ℚ) (st' : RedisState)
    (alerts : List AlertDto) (evs : List Ev) (r : AlertReason)
    (hconn : st.isConnected = true) (hth : env.redisThrows = false)
    (hsome : (lookupEntry st.store (AlertService.alertKey d r)).isSome = true)
    (hrun : AlertService.checkAndAlert env st d s ts t hum =
      .ok (st', alerts, evs)) :
    ∀ a b, a.reason = r → Ev.deliverAttempt a b ∉ evs := by
  rcases hb1 : branchPure env st d s ts .HIGH_TEMPERATURE t
    AlertService.TEMPERATURE_THRESHOLD with ⟨st1, a1, e1⟩
  rcases hb2 : branchPure env st1 d s ts .HIGH_HUMIDITY hum
    AlertService.HUMIDITY_THRESHOLD with ⟨st2, a2, e2⟩
  have hcp : checkPure env st d s ts t hum =
      (st2, a1 ++ a2,
       e1 ++ e2 ++
         (a1 ++ a2).map (fun a => Ev.deliverAttempt a (deliveryOk env a))) := by
    unfold checkPure
    rw [hb1]
    simp only
    rw [hb2]
  rw [AlertService.checkAndAlert_spec, hcp] at hrun
  have hEq := Except.ok.inj hrun
  have hevs : e1 ++ e2 ++
      (a1 ++ a2).map (fun a => Ev.deliverAttempt a (deliveryOk env a)) = evs :=
    congrArg (fun p => p.2.2) hEq
  subst hevs
  have hb1s : (branchPure env st d s ts .HIGH_TEMPERATURE t
      AlertService.TEMPERATURE_THRESHOLD).1 = st1 := by rw [hb1]
  have hb1a : (branchPure env st d s ts .HIGH_TEMPERATURE t
      AlertService.TEMPERATURE_THRESHOLD).2.1 = a1 := by rw [hb1]
  have hb1e : (branchPure env st d s ts .HIGH_TEMPERATURE t
      AlertService.TEMPERATURE_THRESHOLD).2.2 = e1 := by rw [hb1]
  have hb2a : (branchPure env st1 d s ts .HIGH_HUMIDITY hum
      AlertService.HUMIDITY_THRESHOLD).2.1 = a2 := by rw [hb2]
  have hb2e : (branchPure env st1 d s ts .HIGH_HUMIDITY hum
      AlertService.HUMIDITY_THRESHOLD).2.2 = e2 := by rw [hb2]
  have hrs1 := branchPure_alerts_reason env st d s ts .HIGH_TEMPERATURE t
    AlertService.TEMPERATURE_THRESHOLD
  rw [hb1a] at hrs1
  have hrs2 := branchPure_alerts_reason env st1 d s ts .HIGH_HUMIDITY hum
    AlertService.HUMIDITY_THRESHOLD
  rw [hb2a] at hrs2
  have noEvs : ∀ a b, Ev.deliverAttempt a b ∉ e1 ∧ Ev.deliverAttempt a b ∉ e2 := by
    intro a b
    constructor
    · intro hm1
      rcases branchPure_evs_shape env st d s ts .HIGH_TEMPERATURE t
        AlertService.TEMPERATURE_THRESHOLD _ (hb1e ▸ hm1) with
        ⟨b', hb'⟩ | ⟨w', hw'⟩
      · simp at hb'
      · simp at hw'
    · intro hm1
      rcases branchPure_evs_shape env st1 d s ts .HIGH_HUMIDITY hum
        AlertService.HUMIDITY_THRESHOLD _ (hb2e ▸ hm1) with
        ⟨b', hb'⟩ | ⟨w', hw'⟩
      · simp at hb'
      · simp at hw'
  cases r with
  | HIGH_TEMPERATURE =>
    have ha1 : a1 = [] := by
      rw [← hb1a, branchPure_alerts]
      by_cases hv : AlertService.TEMPERATURE_THRESHOLD < t
      · have hg : gateFound env st d .HIGH_TEMPERATURE = true := by
          simp [gateFound, lookupKey, hsome, hconn, hth]
        simp [hv, hg]
      · simp [hv]
    intro a b hr hmem
    rcases List.mem_append.mp hmem with hm | hm
    · rcases List.mem_append.mp hm with hm1 | hm1
      · exact (noEvs a b).1 hm1
      · exact (noEvs a b).2 hm1
    · refine no_deliver_of_reason_map env (a1 ++ a2) .HIGH_TEMPERATURE
        ?_ a b hr hm
      intro a' ha'
      rcases List.mem_append.mp ha' with h1 | h2
      · simp [ha1] at h1
      · rw [hrs2 a' h2]; decide
  | HIGH_HUMIDITY =>
    have hc1 : st1.isConnected = true := by
      rw [← hb1s, branchPure_isConnected]
      exact hconn
    have hl1 : lookupEntry st1.store (AlertService.alertKey d .HIGH_HUMIDITY) =
        lookupEntry st.store (AlertService.alertKey d .HIGH_HUMIDITY) := by
      rw [← hb1s]
      exact lookupEntry_branchPure_other env st d s ts .HIGH_TEMPERATURE t
        AlertService.TEMPERATURE_THRESHOLD .HIGH_HUMIDITY (alertKey_ne_symm d)
    have ha2 : a2 = [] := by
      rw [← hb2a, branchPure_alerts]
      by_cases hv : AlertService.HUMIDITY_THRESHOLD < hum
      · have hg : gateFound env st1 d .HIGH_HUMIDITY = true := by
          simp [gateFound, lookupKey, hl1, hsome, hc1, hth]
        simp [hv, hg]
      · simp [hv]
    intro a b hr hmem
    rcases List.mem_append.mp hmem with hm | hm
    · rcases List.mem_append.mp hm with hm1 | hm1
      · exact (noEvs a b).1 hm1
      · exact (noEvs a b).2 hm1
    · refine no_deliver_of_reason_map env (a1 ++ a2) .HIGH_HUMIDITY
        ?_ a b hr hm
      intro a' ha'
      rcases List.mem_append.mp ha' with h1 | h2
      · rw [hrs1 a' h1]; decide
      · simp [ha2] at h2

/-- C5. For every candidate reason whose queued alert's delivery fails, the
failure is caught inside the dispatcher (`sendAlert` always returns
normally), the failed attempt is recorded, the dedup marker written for that
(deviceId, reason) pair remains in place with the configured window, and a
subsequent `checkAndAlert` run from the resulting state delivers nothing for
that pair — the failed delivery is not retried within the window. -/
theorem checkAndAlert_delivery_failure (env : AlertEnv) (st : RedisState)
    (d s : String) (ts : Int) (t hum : ℚ) (r : AlertReason)
    (e : DeliveryError)
    (st' : RedisState) (alerts : List AlertDto) (evs : List Ev)
    (hconn : st.isConnected = true) (hth : env.redisThrows = false)
    (hv : thresholdOf r < metricOf r t hum)
    (hnone : lookupEntry st.store (AlertService.alertKey d r) = none)
    (hfail : env.delivery ⟨d, s, ts, r, metricOf r t hum⟩ = .error e)
    (hrun : AlertService.checkAndAlert env st d s ts t hum =
      .ok (st', alerts, evs)) :
    (∀ env₂ a, ∃ evs₂, AlertService.sendAlert env₂ a = .ok evs₂) ∧
    Ev.deliverAttempt ⟨d, s, ts, r, metricOf r t hum⟩ false ∈ evs ∧
    lookupEntry st'.store (AlertService.alertKey d r) =
      some (.jsonOf (.num 1), env.dedupWindow) ∧
    (∀ ts₂ t₂ hum₂ st₂ alerts₂ evs₂,
      AlertService.checkAndAlert env st' d s ts₂ t₂ hum₂ =
          .ok (st₂, alerts₂, evs₂) →
        ∀ a b, a.reason = r → Ev.deliverAttempt a b ∉ evs₂) := by
  rcases hb1 : branchPure env st d s ts .HIGH_TEMPERATURE t
    AlertService.TEMPERATURE_THRESHOLD with ⟨st1, a1, e1⟩
  rcases hb2 : branchPure env st1 d s ts .HIGH_HUMIDITY hum
    AlertService.HUMIDITY_THRESHOLD with ⟨st2, a2, e2⟩
  have hcp : checkPure env st d s ts t hum =
      (st2, a1 ++ a2,
       e1 ++ e2 ++
         (a1 ++ a2).map (fun a => Ev.deliverAttempt a (deliveryOk env a))) := by
    unfold checkPure
    rw [hb1]
    simp only
    rw [hb2]
  rw [AlertService.checkAndAlert_spec, hcp] at hrun
  have hEq := Except.ok.inj hrun
  have hst2 : st2 = st' := congrArg (fun p => p.1) hEq
  have hevs : e1 ++ e2 ++
      (a1 ++ a2).map (fun a => Ev.deliverAttempt a (deliveryOk env a)) = evs :=
    congrArg (fun p => p.2.2) hEq
  subst hst2
  subst hevs
  have hb1s : (branchPure env st d s ts .HIGH_TEMPERATURE t
      AlertService.TEMPERATURE_THRESHOLD).1 = st1 := by rw [hb1]
  have hb1a : (branchPure env st d s ts .HIGH_TEMPERATURE t
      AlertService.TEMPERATURE_THRESHOLD).2.1 = a1 := by rw [hb1]
  have hb2s : (branchPure env st1 d s ts .HIGH_HUMIDITY hum
      AlertService.HUMIDITY_THRESHOLD).1 = st2 := by rw [hb2]
  have hb2a : (branchPure env st1 d s ts .HIGH_HUMIDITY hum
      AlertService.HUMIDITY_THRESHOLD).2.1 = a2 := by rw [hb2]
  have hconn2 : st2.isConnected = true := by
    rw [← hb2s, branchPure_isConnected, ← hb1s, branchPure_isConnected]
    exact hconn
  cases r with
  | HIGH_TEMPERATURE =>
    simp only [thresholdOf, metricOf] at hv hfail ⊢
    have hg : gateFound env st d .HIGH_TEMPERATURE = false := by
      simp [gateFound, lookupKey, hnone]
    have hs1 : st1 = markedState env st d .HIGH_TEMPERATURE := by
      rw [← hb1s, branchPure_state]
      simp [hv, hg]
    have ha1 : a1 = [⟨d, s, ts, .HIGH_TEMPERATURE, t⟩] := by
      rw [← hb1a, branchPure_alerts]
      simp [hv, hg]
    have hmark : lookupEntry st2.store
        (AlertService.alertKey d .HIGH_TEMPERATURE) =
          some (.jsonOf (.num 1), env.dedupWindow) := by
      rw [← hb2s,
        lookupEntry_branchPure_other env st1 d s ts .HIGH_HUMIDITY hum
          AlertService.HUMIDITY_THRESHOLD .HIGH_TEMPERATURE
          (alertKey_ne_of_reason d), hs1]
      exact lookupEntry_markedState_self env st d .HIGH_TEMPERATURE hconn hth
    refine ⟨fun env₂ a => ⟨_, AlertService.sendAlert_spec env₂ a⟩, ?_, hmark, ?_⟩
    · have hdok : deliveryOk env ⟨d, s, ts, .HIGH_TEMPERATURE, t⟩ = false := by
        simp [deliveryOk, hfail]
      refine List.mem_append.mpr (.inr ?_)
      refine List.mem_map.mpr
        ⟨⟨d, s, ts, .HIGH_TEMPERATURE, t⟩, ?_, by rw [hdok]⟩
      exact List.mem_append.mpr (.inl (by simp [ha1]))
    · intro ts₂ t₂ hum₂ stB alertsB evsB hrunB a b hr
      exact checkAndAlert_no_delivery_of_marker env st2 d s ts₂ t₂ hum₂ stB
        alertsB evsB .HIGH_TEMPERATURE hconn2 hth (by rw [hmark]; rfl)
        hrunB a b hr
  | HIGH_HUMIDITY =>
    simp only [thresholdOf, metricOf] at hv hfail ⊢
    have hc1 : st1.isConnected = true := by
      rw [← hb1s, branchPure_isConnected]
      exact hconn
    have hl1 : lookupEntry st1.store (AlertService.alertKey d .HIGH_HUMIDITY) =
        none := by
      rw [← hb1s,
        lookupEntry_branchPure_other env st d s ts .HIGH_TEMPERATURE t
          AlertService.TEMPERATURE_THRESHOLD .HIGH_HUMIDITY (alertKey_ne_symm d)]
      exact hnone
    have hg : gateFound env st1 d .HIGH_HUMIDITY = false := by
      simp [gateFound, lookupKey, hl1]
    have hs2 : st2 = markedState env st1 d .HIGH_HUMIDITY := by
      rw [← hb2s, branchPure_state]
      simp [hv, hg]
    have ha2 : a2 = [⟨d, s, ts, .HIGH_HUMIDITY, hum⟩] := by
      rw [← hb2a, branchPure_alerts]
      simp [hv, hg]
    have hmark : lookupEntry st2.store
        (AlertService.alertKey d .HIGH_HUMIDITY) =
          some (.jsonOf (.num 1), env.dedupWindow) := by
      rw [hs2]
      exact lookupEntry_markedState_self env st1 d .HIGH_HUMIDITY hc1 hth
    refine ⟨fun env₂ a => ⟨_, AlertService.sendAlert_spec env₂ a⟩, ?_, hmark, ?_⟩
    · have hdok : deliveryOk env ⟨d, s, ts, .HIGH_HUMIDITY, hum⟩ = false := by
        simp [deliveryOk, hfail]
      refine List.mem_append.mpr (.inr ?_)
      refine List.mem_map.mpr
        ⟨⟨d, s, ts, .HIGH_HUMIDITY, hum⟩, ?_, by rw [hdok]⟩
      exact List.mem_append.mpr (.inr (by simp [ha2]))
    · intro ts₂ t₂ hum₂ stB alertsB evsB hrunB a b hr
      exact checkAndAlert_no_delivery_of_marker env st2 d s ts₂ t₂ hum₂ stB
        alertsB evsB .HIGH_HUMIDITY hconn2 hth (by rw [hmark]; rfl)
        hrunB a b hr

/-- C1. For every batch of at least one reading, ingestion returns an
accepted count equal to the batch length when the batched durable insert
succeeds, fails with the storage error exactly when the durable insert
fails, and its caller-visible response is independent of the cache state,
the durable store contents and every cache/notifier failure oracle. -/
theorem ingestTelemetry_response (env₁ env₂ : IngestEnv) (st₁ st₂ : RedisState)
    (db₁ db₂ readings : List TelemetryDto)
    (hlen : 1 ≤ readings.length) (hsame : env₁.insertOK = env₂.insertOK) :
    ((TelemetryService.ingestTelemetry env₁ st₁ db₁ readings).response =
      (TelemetryService.ingestTelemetry env₂ st₂ db₂ readings).response) ∧
    (env₁.insertOK = true →
      (TelemetryService.ingestTelemetry env₁ st₁ db₁ readings).response =
        .ok readings.length) ∧
    (env₁.insertOK = false →
      (TelemetryService.ingestTelemetry env₁ st₁ db₁ readings).response =
        .error .storage) := by
  rcases hp1 : TelemetryService.processReadings env₁ st₁ readings with
    ⟨s1, al1, ev1⟩
  rcases hp2 : TelemetryService.processReadings env₂ st₂ readings with
    ⟨s2, al2, ev2⟩
  unfold TelemetryService.ingestTelemetry insertMany
  rw [hp1, hp2, ← hsame]
  cases hio : env₁.insertOK <;> simp [hio]

/-- C6. When the cache adapter is disconnected or its underlying client call
throws, every cache operation fails open: the latest-reading get behaves as
a miss, the dedup existence check reports false, and both writes are
swallowed no-ops leaving the state unchanged; moreover, no cache operation
ever raises to its caller, in any state. -/
theorem redis_fail_open (st : RedisState) (throws : Bool) (d reasonStr : String)
    (data : TelemetryDto) (ttl w : Nat)
    (hdown : st.isConnected = false ∨ throws = true) :
    RedisService.getLatest st throws d = .ok none ∧
    RedisService.wasAlertRecentlySent st throws d reasonStr = .ok false ∧
    RedisService.cacheLatest st throws d data ttl = .ok st ∧
    RedisService.markAlertSent st throws d reasonStr w = .ok st ∧
    (∀ st₂ th₂ d₂, ∃ v, RedisService.getLatest st₂ th₂ d₂ = .ok v) ∧
    (∀ st₂ th₂ d₂ r₂, ∃ b,
      RedisService.wasAlertRecentlySent st₂ th₂ d₂ r₂ = .ok b) ∧
    (∀ st₂ th₂ d₂ data₂ ttl₂, ∃ s₃,
      RedisService.cacheLatest st₂ th₂ d₂ data₂ ttl₂ = .ok s₃) ∧
    (∀ st₂ th₂ d₂ r₂ w₂, ∃ s₃,
      RedisService.markAlertSent st₂ th₂ d₂ r₂ w₂ = .ok s₃) := by
  have hgate : (st.isConnected && !throws) = false := by
    rcases hdown with h | h <;> simp [h]
  refine ⟨?_, ?_, ?_, ?_,
    fun st₂ th₂ d₂ => ⟨_, RedisService.getLatest_spec st₂ th₂ d₂⟩,
    fun st₂ th₂ d₂ r₂ => ⟨_, RedisService.wasAlertRecentlySent_spec st₂ th₂ d₂ r₂⟩,
    fun st₂ th₂ d₂ data₂ ttl₂ =>
      ⟨_, RedisService.cacheLatest_spec st₂ th₂ d₂ data₂ ttl₂⟩,
    fun st₂ th₂ d₂ r₂ w₂ =>
      ⟨_, RedisService.markAlertSent_spec st₂ th₂ d₂ r₂ w₂⟩⟩
  · rw [RedisService.getLatest_spec, hgate]; rfl
  · rw [RedisService.wasAlertRecentlySent_spec, hgate]; rfl
  · rw [RedisService.cacheLatest_spec, hgate]; rfl
  · rw [RedisService.markAlertSent_spec, hgate]; rfl

/-- C7. When the store holds no reading matching the site and the closed
timestamp interval, the site summary is the defined all-zeros record (every
field a numeric zero) rather than a failure or absent fields. -/
theorem getSiteSummary_empty (db : List TelemetryDto) (siteId : String)
    (fromTs toTs : Int)
    (hnone : ∀ r ∈ db, ¬(r.siteId = siteId ∧ fromTs ≤ r.ts ∧ r.ts ≤ toTs)) :
    TelemetryService.getSiteSummary db siteId fromTs toTs =
      ⟨0, 0, 0, 0, 0, 0⟩ := by
  have hmatch : TelemetryService.matchStage siteId fromTs toTs db = [] := by
    unfold TelemetryService.matchStage
    rw [List.filter_eq_nil]
    intro a ha hcon
    apply hnone a ha
    have h3 : (a.siteId = siteId ∧ fromTs ≤ a.ts) ∧ a.ts ≤ toTs := by
      simpa using hcon
    exact ⟨h3.1.1, h3.1.2, h3.2⟩
  unfold TelemetryService.getSiteSummary
  rw [hmatch]
  rfl

/-! Helper lemmas about the summary aggregation fold. -/

lemma foldl_groupStep_eq (l : List TelemetryDto) (acc : TelemetryService.GroupAcc) :
    l.foldl TelemetryService.groupStep acc =
      ⟨acc.count + l.length,
       acc.sumTemperature + (l.map (fun r => r.metrics.temperature)).sum,
       (l.map (fun r => r.metrics.temperature)).foldl max acc.maxTemperature,
       acc.sumHumidity + (l.map (fun r => r.metrics.humidity)).sum,
       (l.map (fun r => r.metrics.humidity)).foldl max acc.maxHumidity,
       (l.map (fun r => r.deviceId)).foldl TelemetryService.addToSet
         acc.devices⟩ := by
  induction l generalizing acc with
  | nil => simp
  | cons r rest ih =>
    rcases acc with ⟨c, stp, mtp, shm, mhm, dev⟩
    rw [List.foldl_cons, ih]
    simp only [TelemetryService.groupStep, List.map_cons, List.sum_cons,
      List.length_cons, List.foldl_cons, TelemetryService.GroupAcc.mk.injEq]
    refine ⟨by omega, by ring, trivial, by ring, trivial, trivial⟩

lemma foldl_max_mem (l : List ℚ) (a : ℚ) :
    l.foldl max a = a ∨ l.foldl max a ∈ l := by
  induction l generalizing a with
  | nil => exact .inl rfl
  | cons x xs ih =>
    rw [List.foldl_cons]
    rcases ih (max a x) with h | h
    · rcases le_total a x with hax | hxa
      · right
        rw [h, max_eq_right hax]
        exact List.mem_cons_self x xs
      · left
        rw [h, max_eq_left hxa]
    · right
      exact List.mem_cons_of_mem x h

lemma le_foldl_max (l : List ℚ) (a : ℚ) : a ≤ l.foldl max a := by
  induction l generalizing a with
  | nil => exact le_refl a
  | cons x xs ih =>
    rw [List.foldl_cons]
    exact le_trans (le_max_left a x) (ih (max a x))

lemma mem_le_foldl_max (l : List ℚ) (a : ℚ) : ∀ x ∈ l, x ≤ l.foldl max a := by
  induction l generalizing a with
  | nil => simp
  | cons y ys ih =>
    intro x hx
    rw [List.foldl_cons]
    rcases List.mem_cons.mp hx with h | h
    · subst h
      exact le_trans (le_max_right a x) (le_foldl_max ys (max a x))
    · exact ih (max a y) x h

lemma foldl_addToSet_nodup (l s : List String) (hs : s.Nodup) :
    (l.foldl TelemetryService.addToSet s).Nodup := by
  induction l generalizing s with
  | nil => exact hs
  | cons x xs ih =>
    rw [List.foldl_cons]
    apply ih
    unfold TelemetryService.addToSet
    by_cases hx : x ∈ s
    · simpa [hx] using hs
    · simp [hx, List.nodup_append, hs, List.disjoint_singleton]

lemma foldl_addToSet_toFinset (l s : List String) :
    (l.foldl TelemetryService.addToSet s).toFinset = s.toFinset ∪ l.toFinset := by
  induction l generalizing s with
  | nil => simp
  | cons x xs ih =>
    rw [List.foldl_cons, ih]
    unfold TelemetryService.addToSet
    by_cases hx : x ∈ s
    · simp only [hx, if_true, List.toFinset_cons]
      ext y
      simp only [Finset.mem_union, List.mem_toFinset, Finset.mem_insert]
      constructor
      · rintro (h | h)
        · exact .inl h
        · exact .inr (.inr h)
      · rintro (h | h | h)
        · exact .inl h
        · exact .inl (h ▸ hx)
        · exact .inr h
    · simp only [hx, if_false]
      ext y
      simp [List.mem_toFinset, List.mem_append]
      tauto

/-- Store exhibiting that the summary's maxima are rounded: one reading whose
temperature has more than two decimal places. -/
def summaryStoreC8 : List TelemetryDto :=
  [⟨"device-1", "site-1", 100, ⟨30001/1000, 60⟩⟩]

/-- C8 counterexample: the matched set is exactly this one reading, whose
maximum temperature is 30.001, yet the summary reports `maxTemperature = 30`
— the maxima are rounded to 2 decimal places too, so the summary does not
return the (unrounded) maximum temperature. -/
theorem getSiteSummary_max_rounded_counterexample :
    TelemetryService.matchStage "site-1" 0 200 summaryStoreC8 =
      summaryStoreC8 ∧
    summaryStoreC8.map (fun r => r.metrics.temperature) = [30001/1000] ∧
    (TelemetryService.getSiteSummary summaryStoreC8 "site-1" 0 200).maxTemperature
      = 30 ∧
    (30 : ℚ) ≠ 30001/1000 := by
  refine ⟨?_, ?_, ?_, by norm_num⟩
  · simp [TelemetryService.matchStage, summaryStoreC8]
  · simp [summaryStoreC8]
  · simp [TelemetryService.getSiteSummary, TelemetryService.matchStage,
      summaryStoreC8, TelemetryService.groupStage, TelemetryService.groupInit,
      TelemetryService.projectStage]
    norm_num [round2, roundHalfEven]

/-- C8 (amended). For every non-empty set of readings matching the site and
the closed interval, the summary returns the matched count; the temperature
and humidity averages, rounded to 2 decimal places; the temperature and
humidity maxima, also rounded to 2 decimal places; and the number of
distinct device ids among the matched readings. -/
theorem getSiteSummary_aggregates (db : List TelemetryDto) (siteId : String)
    (fromTs toTs : Int)
    (hne : TelemetryService.matchStage siteId fromTs toTs db ≠ []) :
    (TelemetryService.getSiteSummary db siteId fromTs toTs).count =
      (TelemetryService.matchStage siteId fromTs toTs db).length ∧
    (TelemetryService.getSiteSummary db siteId fromTs toTs).avgTemperature =
      round2 (((TelemetryService.matchStage siteId fromTs toTs db).map
          (fun r => r.metrics.temperature)).sum /
        ((TelemetryService.matchStage siteId fromTs toTs db).length : ℚ)) ∧
    (∃ M, (TelemetryService.getSiteSummary db siteId fromTs toTs).maxTemperature
        = round2 M ∧
      M ∈ (TelemetryService.matchStage siteId fromTs toTs db).map
        (fun r => r.metrics.temperature) ∧
      ∀ x ∈ (TelemetryService.matchStage siteId fromTs toTs db).map
        (fun r => r.metrics.temperature), x ≤ M) ∧
    (TelemetryService.getSiteSummary db siteId fromTs toTs).avgHumidity =
      round2 (((TelemetryService.matchStage siteId fromTs toTs db).map
          (fun r => r.metrics.humidity)).sum /
        ((TelemetryService.matchStage siteId fromTs toTs db).length : ℚ)) ∧
    (∃ M, (TelemetryService.getSiteSummary db siteId fromTs toTs).maxHumidity
        = round2 M ∧
      M ∈ (TelemetryService.matchStage siteId fromTs toTs db).map
        (fun r => r.metrics.humidity) ∧
      ∀ x ∈ (TelemetryService.matchStage siteId fromTs toTs db).map
        (fun r => r.metrics.humidity), x ≤ M) ∧
    (TelemetryService.getSiteSummary db siteId fromTs toTs).uniqueDevices =
      ((TelemetryService.matchStage siteId fromTs toTs db).map
        (fun r => r.deviceId)).toFinset.card := by
  cases hm : TelemetryService.matchStage siteId fromTs toTs db with
  | nil => exact absurd hm hne
  | cons r rest =>
    have hsum : TelemetryService.getSiteSummary db siteId fromTs toTs =
        TelemetryService.projectStage
          (rest.foldl TelemetryService.groupStep (TelemetryService.groupInit r)) := by
      unfold TelemetryService.getSiteSummary
      rw [hm]
      rfl
    have hcount : (TelemetryService.getSiteSummary db siteId fromTs toTs).count
        = 1 + rest.length := by
      rw [hsum, foldl_groupStep_eq]
      rfl
    have havgT : (TelemetryService.getSiteSummary db siteId fromTs toTs).avgTemperature
        = round2 ((r.metrics.temperature +
            (rest.map (fun x => x.metrics.temperature)).sum) /
          ((1 + rest.length : Nat) : ℚ)) := by
      rw [hsum, foldl_groupStep_eq]
      rfl
    have hmaxT : (TelemetryService.getSiteSummary db siteId fromTs toTs).maxTemperature
        = round2 ((rest.map (fun x => x.metrics.temperature)).foldl max
          r.metrics.temperature) := by
      rw [hsum, foldl_groupStep_eq]
      rfl
    have havgH : (TelemetryService.getSiteSummary db siteId fromTs toTs).avgHumidity
        = round2 ((r.metrics.humidity +
            (rest.map (fun x => x.metrics.humidity)).sum) /
          ((1 + rest.length : Nat) : ℚ)) := by
      rw [hsum, foldl_groupStep_eq]
      rfl
    have hmaxH : (TelemetryService.getSiteSummary db siteId fromTs toTs).maxHumidity
        = round2 ((rest.map (fun x => x.metrics.humidity)).foldl max
          r.metrics.humidity) := by
      rw [hsum, foldl_groupStep_eq]
      rfl
    have huniq : (TelemetryService.getSiteSummary db siteId fromTs toTs).uniqueDevices
        = ((rest.map (fun x => x.deviceId)).foldl TelemetryService.addToSet
          [r.deviceId]).length := by
      rw [hsum, foldl_groupStep_eq]
      rfl
    have hcast : ((1 + rest.length : Nat) : ℚ) = ((rest.length + 1 : Nat) : ℚ) := by
      push_cast
      ring
    refine ⟨?_, ?_, ⟨_, hmaxT, ?_, ?_⟩, ?_, ⟨_, hmaxH, ?_, ?_⟩, ?_⟩
    · rw [hcount, List.length_cons]
      omega
    · rw [havgT, List.map_cons, List.sum_cons, List.length_cons, hcast]
    · rw [List.map_cons]
      rcases foldl_max_mem (rest.map (fun x => x.metrics.temperature))
        r.metrics.temperature with h | h
      · rw [h]; exact List.mem_cons_self _ _
      · exact List.mem_cons_of_mem _ h
    · intro x hx
      rw [List.map_cons] at hx
      rcases List.mem_cons.mp hx with h | h
      · rw [h]; exact le_foldl_max _ _
      · exact mem_le_foldl_max _ _ x h
    · rw [havgH, List.map_cons, List.sum_cons, List.length_cons, hcast]
    · rw [List.map_cons]
      rcases foldl_max_mem (rest.map (fun x => x.metrics.humidity))
        r.metrics.humidity with h | h
      · rw [h]; exact List.mem_cons_self _ _
      · exact List.mem_cons_of_mem _ h
    · intro x hx
      rw [List.map_cons] at hx
      rcases List.mem_cons.mp hx with h | h
      · rw [h]; exact le_foldl_max _ _
      · exact mem_le_foldl_max _ _ x h
    · have hnd : ((rest.map (fun x => x.deviceId)).foldl
          TelemetryService.addToSet [r.deviceId]).Nodup :=
        foldl_addToSet_nodup _ _ (by simp)
      have hcard := List.toFinset_card_of_nodup hnd
      rw [huniq, ← hcard, foldl_addToSet_toFinset, List.map_cons]
      congr 1
      ext y
      simp

lemma lookupEntry_eraseKey_self (l : List CacheEntry) (k : String) :
    lookupEntry (eraseKey l k) k = none := by
  induction l with
  | nil => rfl
  | cons e es ih =>
    by_cases he : e.key = k <;> simp [eraseKey, he, lookupEntry, ih]

/-- Normal form of the latest-reading lookup: return a truthy cached value
immediately; otherwise fall back to the durable store, best-effort re-caching
its answer, or fail with NotFound when neither side has data. -/
lemma TelemetryService.getLatest_eq (throws : Bool) (st : RedisState)
    (db : List TelemetryDto) (d : String) :
    TelemetryService.getLatest throws st db d =
      match cacheYield st throws d with
      | some j => .ok (.fromCache j, st)
      | none =>
        match TelemetryService.findLatestByDevice db d with
        | none => .error (.notFound d)
        | some latest =>
          .ok (.fromStore latest,
            fireAndForget (RedisService.cacheLatest st throws d latest) st) := by
  unfold TelemetryService.getLatest cacheYield
  rw [RedisService.getLatest_spec]
  cases hcv : (if st.isConnected && !throws then
      (lookupKey st.store ("latest:" ++ d)).bind jsonParse else none) with
  | none => simp
  | some j => by_cases htr : j.truthy <;> simp [htr]

/-- C9. The latest-reading lookup returns a (truthy) cached value immediately
and its result is then independent of the durable store; on a cache miss it
returns the durable record found for the device, best-effort re-caching it
(the cache holds the record afterwards when the cache is connected and does
not fail); and it fails with NotFound exactly when the cache yields nothing
and the durable store has no record for the device. -/
theorem getLatest_read_path (throws : Bool) (st : RedisState)
    (db : List TelemetryDto) (d : String) :
    (∀ j, cacheYield st throws d = some j →
      ∀ db₂, TelemetryService.getLatest throws st db₂ d =
        .ok (.fromCache j, st)) ∧
    (cacheYield st throws d = none →
      ∀ rec, TelemetryService.findLatestByDevice db d = some rec →
        ∃ st₂, TelemetryService.getLatest throws st db d =
            .ok (.fromStore rec, st₂) ∧
          (st.isConnected = true → throws = false →
            lookupKey st₂.store ("latest:" ++ d) =
              some (.jsonOf (.reading rec)))) ∧
    (TelemetryService.getLatest throws st db d = .error (.notFound d) ↔
      (cacheYield st throws d = none ∧
        TelemetryService.findLatestByDevice db d = none)) := by
  refine ⟨?_, ?_, ?_⟩
  · intro j hj db₂
    rw [TelemetryService.getLatest_eq, hj]
  · intro hy rec hrec
    refine ⟨_, by rw [TelemetryService.getLatest_eq, hy, hrec], ?_⟩
    intro hc hth
    rw [RedisService.cacheLatest_spec]
    simp only [hc, hth, Bool.not_false, Bool.and_self, if_true, fireAndForget]
    simp [lookupKey, lookupEntry]
  · constructor
    · intro herr
      rw [TelemetryService.getLatest_eq] at herr
      cases hy : cacheYield st throws d with
      | some j => rw [hy] at herr; cases herr
      | none =>
        rw [hy] at herr
        cases hf : TelemetryService.findLatestByDevice db d with
        | some rec => rw [hf] at herr; cases herr
        | none => exact ⟨rfl, rfl⟩
    · rintro ⟨hy, hf⟩
      rw [TelemetryService.getLatest_eq, hy, hf]

/-- C10. A corrupt (unparsable) value cached under `latest:<deviceId>` is
treated exactly like a cache miss: the cache adapter's get catches the
deserialization failure and reports nothing, the lookup's caller-visible
result is the same as if the entry were absent (durable fallback or
NotFound), and the only error the lookup can raise is NotFound. -/
theorem getLatest_corrupt_cache_is_miss (throws : Bool) (st : RedisState)
    (db : List TelemetryDto) (d : String)
    (hcorrupt : lookupKey st.store ("latest:" ++ d) = some .corrupt) :
    RedisService.getLatest st throws d = .ok none ∧
    resultOf (TelemetryService.getLatest throws st db d) =
      resultOf (TelemetryService.getLatest throws
        ⟨st.isConnected, eraseKey st.store ("latest:" ++ d)⟩ db d) ∧
    (∀ e, TelemetryService.getLatest throws st db d = .error e →
      e = .notFound d) := by
  have h1 : RedisService.getLatest st throws d = .ok none := by
    rw [RedisService.getLatest_spec]
    cases hg : (st.isConnected && !throws) <;> simp [hg, hcorrupt, jsonParse]
  have hyA : cacheYield st throws d = none := by
    unfold cacheYield
    rw [h1]
  have hkey : lookupKey (eraseKey st.store ("latest:" ++ d)) ("latest:" ++ d)
      = none := by
    unfold lookupKey
    rw [lookupEntry_eraseKey_self]
    rfl
  have h2 : RedisService.getLatest
      ⟨st.isConnected, eraseKey st.store ("latest:" ++ d)⟩ throws d =
        .ok none := by
    rw [RedisService.getLatest_spec]
    cases hg : (st.isConnected && !throws) <;> simp [hg, hkey] <;>
      cases hc : st.isConnected <;> cases throws <;> simp_all
  have hyB : cacheYield ⟨st.isConnected, eraseKey st.store ("latest:" ++ d)⟩
      throws d = none := by
    unfold cacheYield
    rw [h2]
  refine ⟨h1, ?_, ?_⟩
  · rw [TelemetryService.getLatest_eq, TelemetryService.getLatest_eq, hyA, hyB]
    cases hf : TelemetryService.findLatestByDevice db d <;>
      simp [resultOf, Except.map]
  · intro e herr
    rw [TelemetryService.getLatest_eq, hyA] at herr
    cases hf : TelemetryService.findLatestByDevice db d with
    | some rec => rw [hf] at herr; cases herr
    | none =>
      rw [hf] at herr
      exact (Except.error.inj herr).symm ▸ rfl

/-! Concrete fixtures used by the witness theorems below. -/

/-- Alert environment whose webhook always answers 200. -/
def wEnv : AlertEnv :=
  ⟨"https://example.invalid/hook", 60, false, fun _ => .ok 200⟩

/-- Alert environment whose webhook always times out. -/
def wEnvFail : AlertEnv :=
  ⟨"https://example.invalid/hook", 60, false, fun _ => .error .timeout⟩

/-- Connected cache with an empty store. -/
def stW : RedisState := ⟨true, []⟩

/-- One ordinary reading. -/
def readingW : TelemetryDto := ⟨"device-1", "site-1", 0, ⟨21, 40⟩⟩

/-- Ingestion environment with a succeeding durable insert. -/
def envIngestOk : IngestEnv := ⟨true, false, wEnv⟩

theorem ingestTelemetry_response_witness :
    ((TelemetryService.ingestTelemetry envIngestOk stW [] [readingW]).response =
      (TelemetryService.ingestTelemetry envIngestOk stW [] [readingW]).response) ∧
    (envIngestOk.insertOK = true →
      (TelemetryService.ingestTelemetry envIngestOk stW [] [readingW]).response =
        .ok [readingW].length) ∧
    (envIngestOk.insertOK = false →
      (TelemetryService.ingestTelemetry envIngestOk stW [] [readingW]).response =
        .error .storage) :=
  ingestTelemetry_response envIngestOk envIngestOk stW stW [] [] [readingW]
    (by simp) rfl

theorem checkAndAlert_candidate_iff_threshold_witness :
    ((∃ b, Ev.dedupCheck (AlertService.alertKey "device-1" .HIGH_TEMPERATURE) b
        ∈ ([] : List Ev)) ↔ (50 : ℚ) < 50) ∧
    ((∃ b, Ev.dedupCheck (AlertService.alertKey "device-1" .HIGH_HUMIDITY) b
        ∈ ([] : List Ev)) ↔ (90 : ℚ) < 90) :=
  checkAndAlert_candidate_iff_threshold wEnv stW "device-1" "site-1" 0 50 90
    stW [] []
    (by
      rw [AlertService.checkAndAlert_spec]
      have h : checkPure wEnv stW "device-1" "site-1" 0 50 90 = (stW, [], []) := by
        unfold checkPure branchPure
        norm_num [AlertService.TEMPERATURE_THRESHOLD,
          AlertService.HUMIDITY_THRESHOLD]
      rw [h])

/-- Cache state after one HIGH_TEMPERATURE marker write with window 60. -/
def stMarkedW : RedisState :=
  ⟨true, [⟨AlertService.alertKey "device-1" .HIGH_TEMPERATURE,
    .jsonOf (.num 1), 60⟩]⟩

/-- The HIGH_TEMPERATURE alert of a reading with temperature 60. -/
def alertW : AlertDto := ⟨"device-1", "site-1", 0, .HIGH_TEMPERATURE, 60⟩

theorem checkAndAlert_marker_writes_witness :
    lookupEntry stMarkedW.store
        (AlertService.alertKey "device-1" .HIGH_TEMPERATURE) =
      some (.jsonOf (.num 1), 60) :=
  (checkAndAlert_marker_writes wEnv stW "device-1" "site-1" 0 60 40
    .HIGH_TEMPERATURE stMarkedW [alertW]
    [.dedupCheck (AlertService.alertKey "device-1" .HIGH_TEMPERATURE) false,
     .markSet (AlertService.alertKey "device-1" .HIGH_TEMPERATURE) 60,
     .deliverAttempt alertW true]
    rfl rfl
    (by
      rw [AlertService.checkAndAlert_spec]
      have h : checkPure wEnv stW "device-1" "site-1" 0 60 40 =
          (stMarkedW, [alertW],
           [.dedupCheck (AlertService.alertKey "device-1" .HIGH_TEMPERATURE) false,
            .markSet (AlertService.alertKey "device-1" .HIGH_TEMPERATURE) 60,
            .deliverAttempt alertW true]) := by
        unfold checkPure branchPure gateFound markedState
        norm_num [AlertService.TEMPERATURE_THRESHOLD,
          AlertService.HUMIDITY_THRESHOLD, lookupKey, lookupEntry, eraseKey,
          deliveryOk, wEnv, stW, stMarkedW, alertW]
      rw [h])).2.1
    (by norm_num [thresholdOf, metricOf, AlertService.TEMPERATURE_THRESHOLD])
    rfl

/-- Cache state after both marker writes of the dual-alert reading. -/
def stDualW : RedisState :=
  ⟨true, [⟨AlertService.alertKey "device-1" .HIGH_HUMIDITY, .jsonOf (.num 1), 60⟩,
          ⟨AlertService.alertKey "device-1" .HIGH_TEMPERATURE,
            .jsonOf (.num 1), 60⟩]⟩

/-- The two alerts of a reading with temperature 65 and humidity 95. -/
def alertT65 : AlertDto := ⟨"device-1", "site-1", 0, .HIGH_TEMPERATURE, 65⟩

/-- The humidity alert of that same reading. -/
def alertH95 : AlertDto := ⟨"device-1", "site-1", 0, .HIGH_HUMIDITY, 95⟩

theorem checkAndAlert_dual_alert_witness :
    [alertT65, alertH95] =
      [⟨"device-1", "site-1", 0, .HIGH_TEMPERATURE, 65⟩,
       ⟨"device-1", "site-1", 0, .HIGH_HUMIDITY, 95⟩] :=
  (checkAndAlert_dual_alert wEnv stW "device-1" "site-1" 0 stDualW
    [alertT65, alertH95]
    [.dedupCheck (AlertService.alertKey "device-1" .HIGH_TEMPERATURE) false,
     .markSet (AlertService.alertKey "device-1" .HIGH_TEMPERATURE) 60,
     .dedupCheck (AlertService.alertKey "device-1" .HIGH_HUMIDITY) false,
     .markSet (AlertService.alertKey "device-1" .HIGH_HUMIDITY) 60,
     .deliverAttempt alertT65 true, .deliverAttempt alertH95 true]
    rfl rfl rfl
    (by
      rw [AlertService.checkAndAlert_spec]
      have h : checkPure wEnv stW "device-1" "site-1" 0 65 95 =
          (stDualW, [alertT65, alertH95],
           [.dedupCheck (AlertService.alertKey "device-1" .HIGH_TEMPERATURE) false,
            .markSet (AlertService.alertKey "device-1" .HIGH_TEMPERATURE) 60,
            .dedupCheck (AlertService.alertKey "device-1" .HIGH_HUMIDITY) false,
            .markSet (AlertService.alertKey "device-1" .HIGH_HUMIDITY) 60,
            .deliverAttempt alertT65 true, .deliverAttempt alertH95 true]) := by
        unfold checkPure branchPure gateFound markedState
        norm_num [AlertService.TEMPERATURE_THRESHOLD,
          AlertService.HUMIDITY_THRESHOLD, lookupKey, lookupEntry, eraseKey,
          deliveryOk, wEnv, stW, stDualW, alertT65, alertH95,
          alertKey_ne_of_reason "device-1", alertKey_ne_symm "device-1"]
      rw [h])).1

theorem checkAndAlert_delivery_failure_witness :
    lookupEntry stMarkedW.store
        (AlertService.alertKey "device-1" .HIGH_TEMPERATURE) =
      some (.jsonOf (.num 1), wEnvFail.dedupWindow) :=
  (checkAndAlert_delivery_failure wEnvFail stW "device-1" "site-1" 0 60 40
    .HIGH_TEMPERATURE .timeout stMarkedW [alertW]
    [.dedupCheck (AlertService.alertKey "device-1" .HIGH_TEMPERATURE) false,
     .markSet (AlertService.alertKey "device-1" .HIGH_TEMPERATURE) 60,
     .deliverAttempt alertW false]
    rfl rfl
    (by norm_num [thresholdOf, metricOf, AlertService.TEMPERATURE_THRESHOLD])
    rfl rfl
    (by
      rw [AlertService.checkAndAlert_spec]
      have h : checkPure wEnvFail stW "device-1" "site-1" 0 60 40 =
          (stMarkedW, [alertW],
           [.dedupCheck (AlertService.alertKey "device-1" .HIGH_TEMPERATURE) false,
            .markSet (AlertService.alertKey "device-1" .HIGH_TEMPERATURE) 60,
            .deliverAttempt alertW false]) := by
        unfold checkPure branchPure gateFound markedState
        norm_num [AlertService.TEMPERATURE_THRESHOLD,
          AlertService.HUMIDITY_THRESHOLD, lookupKey, lookupEntry, eraseKey,
          deliveryOk, wEnvFail, stW, stMarkedW, alertW]
      rw [h])).2.2.1

theorem redis_fail_open_witness :
    RedisService.wasAlertRecentlySent ⟨false, []⟩ false "device-1"
      "HIGH_TEMPERATURE" = .ok false :=
  (redis_fail_open ⟨false, []⟩ false "device-1" "HIGH_TEMPERATURE" readingW
    86400 60 (Or.inl rfl)).2.1

theorem getSiteSummary_empty_witness :
    TelemetryService.getSiteSummary [readingW] "site-2" 0 200 =
      ⟨0, 0, 0, 0, 0, 0⟩ :=
  getSiteSummary_empty [readingW] "site-2" 0 200 (by
    intro r hr hcon
    rw [List.mem_singleton] at hr
    subst hr
    exact absurd hcon.1 (by simp [readingW]))

/-- Two readings from two devices of one site, the spec's summary example. -/
def summaryStoreEx : List TelemetryDto :=
  [⟨"device-1", "site-1", 100, ⟨25, 60⟩⟩,
   ⟨"device-2", "site-1", 150, ⟨30, 70⟩⟩]

theorem getSiteSummary_aggregates_witness :
    (TelemetryService.getSiteSummary summaryStoreEx "site-1" 0 200).count =
      (TelemetryService.matchStage "site-1" 0 200 summaryStoreEx).length :=
  (getSiteSummary_aggregates summaryStoreEx "site-1" 0 200 (by
    simp [TelemetryService.matchStage, summaryStoreEx])).1

/-- Connected cache holding an unparsable value under `latest:device-1`. -/
def stCorruptW : RedisState :=
  ⟨true, [⟨"latest:" ++ "device-1", .corrupt, 100⟩]⟩

theorem getLatest_corrupt_cache_is_miss_witness :
    RedisService.getLatest stCorruptW false "device-1" = .ok none :=
  (getLatest_corrupt_cache_is_miss false stCorruptW [] "device-1"
    (by simp [stCorruptW, lookupKey, lookupEntry])).1

end Cloude360
